import Mathlib

/-!
Shallow embedding of the Pulse netcode core (src/include/net_common.hpp,
src/include/net_host.hpp, src/include/net_client.hpp) and proofs about it.

Conventions used throughout:
* C++ unsigned machine integers are modelled as `ℕ` with explicit reductions
  `% 256`, `% 65536`, `% 2^32` exactly where the C++ type would truncate or
  wrap; `x & 0xFF` on an unsigned value is `x % 256`, `x >> 8` is `x / 256`,
  and `a | (b << 8)` with `a < 256` is `a + 256 * b`.
* `float` values that are only copied through the wire codec are represented
  by their 32-bit bit patterns (the C++ code moves them with `memcpy` to and
  from `uint32_t`, which is bit-exact in both directions).  Types carrying
  bit patterns have a `W` suffix (wire tier).
* `float` values that participate in arithmetic (the movement rule, the
  reconciliation step, interpolation) are modelled as exact rationals `ℚ`,
  with the library functions `cosf`, `sinf`, `sqrtf` and the constant `M_PI`
  taken as parameters: every theorem about that arithmetic holds for any
  instantiation of those parameters, which in particular captures the single
  IEEE-754 instantiation the binary uses.  Types on this tier have a `Q`
  suffix.
-/

/-- Model of `MAX_PACKET_SIZE` from net_common.hpp (safe MTU). -/
def MAX_PACKET_SIZE : ℕ := 1400

/-- Model of `INPUT_BUFFER_SIZE` from net_common.hpp. -/
def INPUT_BUFFER_SIZE : ℕ := 64

/-- Model of `STATE_BUFFER_SIZE` from net_common.hpp. -/
def STATE_BUFFER_SIZE : ℕ := 128

/-- The serialization buffer `PacketBuffer` of net_common.hpp: a byte array
of `MAX_PACKET_SIZE` cells with independent write and read cursors.  The
array is modelled as a total function `ℕ → ℕ`; only indices below
`MAX_PACKET_SIZE` are ever touched by the operations. -/
structure PacketBuffer where
  data : ℕ → ℕ
  writePos : ℕ
  readPos : ℕ

/-- A fresh `PacketBuffer` (both cursors zero; cell contents irrelevant,
taken to be zero). -/
def PacketBuffer.fresh : PacketBuffer := ⟨fun _ => 0, 0, 0⟩

/-- Model of `writeU8`: store the byte if there is room, else silently drop.
The `% 256` is the implicit conversion to the `uint8_t` parameter. -/
def PacketBuffer.writeU8 (b : PacketBuffer) (v : ℕ) : PacketBuffer :=
  if b.writePos < MAX_PACKET_SIZE then
    { b with data := Function.update b.data b.writePos (v % 256),
             writePos := b.writePos + 1 }
  else b

/-- Model of `writeU16 v { writeU8(v & 0xFF); writeU8((v >> 8) & 0xFF); }`. -/
def PacketBuffer.writeU16 (b : PacketBuffer) (v : ℕ) : PacketBuffer :=
  (b.writeU8 (v % 256)).writeU8 ((v / 256) % 256)

/-- Model of `writeU32 v { writeU16(v & 0xFFFF); writeU16((v >> 16) & 0xFFFF); }`. -/
def PacketBuffer.writeU32 (b : PacketBuffer) (v : ℕ) : PacketBuffer :=
  (b.writeU16 (v % 65536)).writeU16 ((v / 65536) % 65536)

/-- Model of `writeFloat`: `memcpy` of the float's bit pattern into a `uint32_t`
followed by `writeU32`; the argument is already the bit pattern. -/
def PacketBuffer.writeFloat (b : PacketBuffer) (u : ℕ) : PacketBuffer :=
  b.writeU32 u

/-- Model of `writeBytes(src, len)`: all-or-nothing block copy. -/
def PacketBuffer.writeBytes (b : PacketBuffer) (src : List ℕ) : PacketBuffer :=
  if b.writePos + src.length ≤ MAX_PACKET_SIZE then
    { b with
      data := fun i =>
        if b.writePos ≤ i ∧ i < b.writePos + src.length then
          src.getD (i - b.writePos) 0 % 256
        else b.data i,
      writePos := b.writePos + src.length }
  else b

/-- Model of `readU8`: yield the byte under the read cursor and advance, or yield 0
without advancing when the cursor has reached the write cursor.  The
`% 256` models the `uint8_t` cell type of `data`. -/
def PacketBuffer.readU8 (b : PacketBuffer) : ℕ × PacketBuffer :=
  if b.readPos < b.writePos then
    (b.data b.readPos % 256, { b with readPos := b.readPos + 1 })
  else (0, b)

/-- Model of `readU16 { uint16_t v = readU8(); return v | (readU8() << 8); }`;
the low byte is `< 256`, so `|` is `+`. -/
def PacketBuffer.readU16 (b : PacketBuffer) : ℕ × PacketBuffer :=
  let r0 := b.readU8
  let r1 := r0.2.readU8
  (r0.1 + 256 * r1.1, r1.2)

/-- Model of `readU32 { uint32_t v = readU16(); return v | (readU16() << 16); }`. -/
def PacketBuffer.readU32 (b : PacketBuffer) : ℕ × PacketBuffer :=
  let r0 := b.readU16
  let r1 := r0.2.readU16
  (r0.1 + 65536 * r1.1, r1.2)

/-- Model of `readFloat`: `readU32` plus a bit-exact `memcpy` into a float; the
result stays a bit pattern. -/
def PacketBuffer.readFloat (b : PacketBuffer) : ℕ × PacketBuffer :=
  b.readU32

/-- Model of `readBytes(dst, len)`: all-or-nothing block read.  `none` means the
guard `readPos + len <= writePos` failed and the destination was left
untouched (and the cursor did not move). -/
def PacketBuffer.readBytes (b : PacketBuffer) (len : ℕ) :
    Option (List ℕ) × PacketBuffer :=
  if b.readPos + len ≤ b.writePos then
    (some ((List.range len).map fun i => b.data (b.readPos + i) % 256),
     { b with readPos := b.readPos + len })
  else (none, b)

/-- Model of `PacketHeader` of net_common.hpp.  `type` is the underlying `uint8_t`
of the `PacketType` enum (CONNECT_REQUEST 0x01, CONNECT_ACCEPT 0x02,
CONNECT_REJECT 0x03, DISCONNECT 0x04, HEARTBEAT 0x05, INPUT 0x10,
STATE_UPDATE 0x11, WORLD_SNAPSHOT 0x12, ENTITY_CREATE 0x20,
ENTITY_DESTROY 0x21, ACK 0x30). -/
structure PacketHeader where
  magic0 : ℕ
  magic1 : ℕ
  magic2 : ℕ
  magic3 : ℕ
  type : ℕ
  sequence : ℕ
  ack : ℕ
  ackBits : ℕ
  tick : ℕ
  payloadSize : ℕ
deriving DecidableEq

/-- The `PacketHeader` default constructor: magic "PULS"
(`'P' = 80, 'U' = 85, 'L' = 76, 'S' = 83`), type `HEARTBEAT = 5`, all
other fields zero. -/
def PacketHeader.mkDefault : PacketHeader :=
  ⟨80, 85, 76, 83, 5, 0, 0, 0, 0, 0⟩

/-- Model of `PacketHeader::isValid`: the four magic bytes spell "PULS". -/
def PacketHeader.isValid (h : PacketHeader) : Bool :=
  h.magic0 == 80 && h.magic1 == 85 && h.magic2 == 76 && h.magic3 == 83

/-- Field ranges guaranteed by the C++ member types
(`uint8_t magic[4]`, `uint8_t type`, four `uint32_t`, `uint16_t`). -/
def PacketHeader.wf (h : PacketHeader) : Prop :=
  h.magic0 < 256 ∧ h.magic1 < 256 ∧ h.magic2 < 256 ∧ h.magic3 < 256 ∧
  h.type < 256 ∧ h.sequence < 2 ^ 32 ∧ h.ack < 2 ^ 32 ∧
  h.ackBits < 2 ^ 32 ∧ h.tick < 2 ^ 32 ∧ h.payloadSize < 65536

instance (h : PacketHeader) : Decidable h.wf := by
  unfold PacketHeader.wf; infer_instance

/-- Model of `PacketBuffer::writeHeader`. -/
def PacketBuffer.writeHeader (b : PacketBuffer) (h : PacketHeader) :
    PacketBuffer :=
  ((((((b.writeBytes [h.magic0, h.magic1, h.magic2, h.magic3]).writeU8
      h.type).writeU32 h.sequence).writeU32 h.ack).writeU32
      h.ackBits).writeU32 h.tick).writeU16 h.payloadSize

/-- Model of `PacketBuffer::readHeader`.  The header is default-constructed first;
when the 4-byte magic read fails its guard, the default magic "PULS"
survives in `h.magic` (this is the behaviour claim C10 is about). -/
def PacketBuffer.readHeader (b : PacketBuffer) : PacketHeader × PacketBuffer :=
  let h0 := PacketHeader.mkDefault
  let rm := b.readBytes 4
  let m0 := match rm.1 with
            | some l => l.getD 0 0
            | none => h0.magic0
  let m1 := match rm.1 with
            | some l => l.getD 1 0
            | none => h0.magic1
  let m2 := match rm.1 with
            | some l => l.getD 2 0
            | none => h0.magic2
  let m3 := match rm.1 with
            | some l => l.getD 3 0
            | none => h0.magic3
  let rt := rm.2.readU8
  let rs := rt.2.readU32
  let ra := rs.2.readU32
  let rb := ra.2.readU32
  let rk := rb.2.readU32
  let rp := rk.2.readU16
  ({ magic0 := m0, magic1 := m1, magic2 := m2, magic3 := m3,
     type := rt.1, sequence := rs.1, ack := ra.1, ackBits := rb.1,
     tick := rk.1, payloadSize := rp.1 }, rp.2)

/-- Model of `PlayerInput` on the wire tier: float fields carried as bit patterns. -/
structure PlayerInputW where
  sequence : ℕ
  tick : ℕ
  keys : ℕ
  yaw : ℕ
  pitch : ℕ
  deltaTime : ℕ
deriving DecidableEq

/-- Field ranges guaranteed by the C++ member types of `PlayerInput`. -/
def PlayerInputW.wf (i : PlayerInputW) : Prop :=
  i.sequence < 2 ^ 32 ∧ i.tick < 2 ^ 32 ∧ i.keys < 256 ∧
  i.yaw < 2 ^ 32 ∧ i.pitch < 2 ^ 32 ∧ i.deltaTime < 2 ^ 32

instance (i : PlayerInputW) : Decidable i.wf := by
  unfold PlayerInputW.wf; infer_instance

/-- Model of `PacketBuffer::writePlayerInput`. -/
def PacketBuffer.writePlayerInput (b : PacketBuffer) (i : PlayerInputW) :
    PacketBuffer :=
  (((((b.writeU32 i.sequence).writeU32 i.tick).writeU8 i.keys).writeFloat
      i.yaw).writeFloat i.pitch).writeFloat i.deltaTime

/-- Model of `PacketBuffer::readPlayerInput`. -/
def PacketBuffer.readPlayerInput (b : PacketBuffer) :
    PlayerInputW × PacketBuffer :=
  let rs := b.readU32
  let rt := rs.2.readU32
  let rk := rt.2.readU8
  let ry := rk.2.readFloat
  let rp := ry.2.readFloat
  let rd := rp.2.readFloat
  ({ sequence := rs.1, tick := rt.1, keys := rk.1, yaw := ry.1,
     pitch := rp.1, deltaTime := rd.1 }, rd.2)

/-- Model of `PlayerState` on the wire tier: float fields carried as bit patterns. -/
structure PlayerStateW where
  playerId : ℕ
  tick : ℕ
  posX : ℕ
  posY : ℕ
  posZ : ℕ
  yaw : ℕ
  pitch : ℕ
  lastProcessedInput : ℕ
deriving DecidableEq

/-- Field ranges guaranteed by the C++ member types of `PlayerState`. -/
def PlayerStateW.wf (s : PlayerStateW) : Prop :=
  s.playerId < 2 ^ 32 ∧ s.tick < 2 ^ 32 ∧ s.posX < 2 ^ 32 ∧
  s.posY < 2 ^ 32 ∧ s.posZ < 2 ^ 32 ∧ s.yaw < 2 ^ 32 ∧
  s.pitch < 2 ^ 32 ∧ s.lastProcessedInput < 2 ^ 32

instance (s : PlayerStateW) : Decidable s.wf := by
  unfold PlayerStateW.wf; infer_instance

/-- Model of `PacketBuffer::writePlayerState` (the position is written with
`writeVec3`, i.e. three `writeFloat`s in x, y, z order). -/
def PacketBuffer.writePlayerState (b : PacketBuffer) (s : PlayerStateW) :
    PacketBuffer :=
  (((((((b.writeU32 s.playerId).writeU32 s.tick).writeFloat
      s.posX).writeFloat s.posY).writeFloat s.posZ).writeFloat
      s.yaw).writeFloat s.pitch).writeU32 s.lastProcessedInput

/-- Model of `PacketBuffer::readPlayerState`. -/
def PacketBuffer.readPlayerState (b : PacketBuffer) :
    PlayerStateW × PacketBuffer :=
  let ri := b.readU32
  let rt := ri.2.readU32
  let rx := rt.2.readFloat
  let ry := rx.2.readFloat
  let rz := ry.2.readFloat
  let rw := rz.2.readFloat
  let rp := rw.2.readFloat
  let rl := rp.2.readU32
  ({ playerId := ri.1, tick := rt.1, posX := rx.1, posY := ry.1,
     posZ := rz.1, yaw := rw.1, pitch := rp.1,
     lastProcessedInput := rl.1 }, rl.2)

/-- Model of `EntityState` on the wire tier (only read by the client from world
snapshots). -/
structure EntityStateW where
  entityId : ℕ
  entityType : ℕ
  posX : ℕ
  posY : ℕ
  posZ : ℕ
  velX : ℕ
  velY : ℕ
  velZ : ℕ
  yaw : ℕ
  pitch : ℕ
deriving DecidableEq

/-- Model of `PacketBuffer::writeEntityState`. -/
def PacketBuffer.writeEntityState (b : PacketBuffer) (e : EntityStateW) :
    PacketBuffer :=
  (((((((((b.writeU32 e.entityId).writeU8 e.entityType).writeFloat
      e.posX).writeFloat e.posY).writeFloat e.posZ).writeFloat
      e.velX).writeFloat e.velY).writeFloat e.velZ).writeFloat
      e.yaw).writeFloat e.pitch

/-- Model of `PacketBuffer::readEntityState`. -/
def PacketBuffer.readEntityState (b : PacketBuffer) :
    EntityStateW × PacketBuffer :=
  let ri := b.readU32
  let rt := ri.2.readU8
  let rx := rt.2.readFloat
  let ry := rx.2.readFloat
  let rz := ry.2.readFloat
  let ru := rz.2.readFloat
  let rv := ru.2.readFloat
  let rw := rv.2.readFloat
  let rya := rw.2.readFloat
  let rp := rya.2.readFloat
  ({ entityId := ri.1, entityType := rt.1, posX := rx.1, posY := ry.1,
     posZ := rz.1, velX := ru.1, velY := rv.1, velZ := rw.1,
     yaw := rya.1, pitch := rp.1 }, rp.2)

/-- View of a `PacketBuffer` whose cells hold the bytes of `l` and whose
write cursor sits at the end of `l`. -/
def bufAt (l : List ℕ) (p : ℕ) : PacketBuffer :=
  ⟨fun i => l.getD i 0, l.length, p⟩

/-- The 23 bytes `writeHeader` lays down. -/
def headerBytes (h : PacketHeader) : List ℕ :=
  [h.magic0 % 256, h.magic1 % 256, h.magic2 % 256, h.magic3 % 256,
   h.type % 256,
   h.sequence % 65536 % 256, h.sequence % 65536 / 256 % 256,
   h.sequence / 65536 % 65536 % 256, h.sequence / 65536 % 65536 / 256 % 256,
   h.ack % 65536 % 256, h.ack % 65536 / 256 % 256,
   h.ack / 65536 % 65536 % 256, h.ack / 65536 % 65536 / 256 % 256,
   h.ackBits % 65536 % 256, h.ackBits % 65536 / 256 % 256,
   h.ackBits / 65536 % 65536 % 256, h.ackBits / 65536 % 65536 / 256 % 256,
   h.tick % 65536 % 256, h.tick % 65536 / 256 % 256,
   h.tick / 65536 % 65536 % 256, h.tick / 65536 % 65536 / 256 % 256,
   h.payloadSize % 256, h.payloadSize / 256 % 256]

/-- Little-endian u32 byte quadruple, as produced by `writeU32`. -/
def u32Bytes (v : ℕ) : List ℕ :=
  [v % 65536 % 256, v % 65536 / 256 % 256,
   v / 65536 % 65536 % 256, v / 65536 % 65536 / 256 % 256]

/-- The 21 bytes `writePlayerInput` lays down. -/
def inputBytes (i : PlayerInputW) : List ℕ :=
  u32Bytes i.sequence ++ u32Bytes i.tick ++ [i.keys % 256] ++
  u32Bytes i.yaw ++ u32Bytes i.pitch ++ u32Bytes i.deltaTime

/-- The 32 bytes `writePlayerState` lays down. -/
def stateBytes (s : PlayerStateW) : List ℕ :=
  u32Bytes s.playerId ++ u32Bytes s.tick ++ u32Bytes s.posX ++
  u32Bytes s.posY ++ u32Bytes s.posZ ++ u32Bytes s.yaw ++
  u32Bytes s.pitch ++ u32Bytes s.lastProcessedInput

/-- Concrete header used by the C9 witness (the values of net_test.cpp's
header-validation test). -/
def hdrEx : PacketHeader :=
  { magic0 := 80, magic1 := 85, magic2 := 76, magic3 := 83, type := 0x11,
    sequence := 12345, ack := 12340, ackBits := 4294967295, tick := 9999,
    payloadSize := 128 }

/-- Concrete input used by the C9 witness. -/
def inpEx : PlayerInputW :=
  { sequence := 42, tick := 100, keys := 0x15, yaw := 3, pitch := 7,
    deltaTime := 11 }

/-- Concrete state used by the C9 witness. -/
def stEx : PlayerStateW :=
  { playerId := 5, tick := 200, posX := 10, posY := 20, posZ := 30,
    yaw := 90, pitch := 45, lastProcessedInput := 150 }

/-- The `PacketBuffer` that `Host::sendStateUpdates` builds for one
connection (net_host.hpp:344-379): reserve 22 bytes for the header, write
`u8 playerCount` then every `PlayerState`, set
`payloadSize = writePos - headerPos - 22`, then rewind and write the
23-byte header over offsets 0..22.  `sequence`/`ack`/`ackBits`/`tick` are
the values the source takes from the connection and `currentTick_`. -/
def Host.buildStateUpdate (sequence ack ackBits tick : ℕ)
    (players : List PlayerStateW) : PacketBuffer :=
  let b0 := PacketBuffer.fresh
  let headerPos := b0.writePos
  let b1 := { b0 with writePos := b0.writePos + 22 }
  let b2 := b1.writeU8 players.length
  let b3 := players.foldl PacketBuffer.writePlayerState b2
  let payloadSize := b3.writePos - headerPos - 22
  let savedPos := b3.writePos
  let b4 := { b3 with writePos := headerPos }
  let b5 := b4.writeHeader
    { magic0 := 80, magic1 := 85, magic2 := 76, magic3 := 83,
      type := 0x11, sequence := sequence, ack := ack, ackBits := ackBits,
      tick := tick, payloadSize := payloadSize }
  { b5 with writePos := savedPos }

/-- Model of `Host::updateAcks` (net_host.hpp:492-508), acting on the connection's
`(remoteSequence, ackBits)` pair.  All quantities are `uint32_t`; the shift
result is reduced mod `2^32`. -/
def Host.updateAcks (remoteSequence ackBits sequence : ℕ) : ℕ × ℕ :=
  if sequence > remoteSequence then
    let shift := sequence - remoteSequence
    if shift < 32 then
      (sequence, (ackBits <<< shift ||| 1) % 2 ^ 32)
    else
      (sequence, 1)
  else if sequence < remoteSequence then
    let diff := remoteSequence - sequence
    if diff < 32 then
      (remoteSequence, (ackBits ||| 1 <<< diff) % 2 ^ 32)
    else
      (remoteSequence, ackBits)
  else
    (remoteSequence, ackBits)

/-- Model of `Client::updateAcks` (net_client.hpp:471-486), acting on
`(remoteSequence_, ackBits_)`; textually the same algorithm as the host's. -/
def Client.updateAcks (remoteSequence ackBits sequence : ℕ) : ℕ × ℕ :=
  if sequence > remoteSequence then
    let shift := sequence - remoteSequence
    if shift < 32 then
      (sequence, (ackBits <<< shift ||| 1) % 2 ^ 32)
    else
      (sequence, 1)
  else if sequence < remoteSequence then
    let diff := remoteSequence - sequence
    if diff < 32 then
      (remoteSequence, (ackBits ||| 1 <<< diff) % 2 ^ 32)
    else
      (remoteSequence, ackBits)
  else
    (remoteSequence, ackBits)

/-!  Arithmetic tier: float values modelled as exact rationals, with the
float library functions `cosf`, `sinf`, `sqrtf` and the constant `M_PI`
taken as parameters (`piv` below).  Theorems hold for every instantiation
of these parameters, in particular for the IEEE-754 one. -/

/-- Model of `Vec3` over exact rationals. -/
structure Vec3Q where
  x : ℚ
  y : ℚ
  z : ℚ
deriving DecidableEq

/-- Model of `Vec3::operator-`. -/
def Vec3Q.sub (a b : Vec3Q) : Vec3Q := ⟨a.x - b.x, a.y - b.y, a.z - b.z⟩

/-- Model of `Vec3::operator+`. -/
def Vec3Q.add (a b : Vec3Q) : Vec3Q := ⟨a.x + b.x, a.y + b.y, a.z + b.z⟩

/-- Model of `Vec3::operator*` (scale). -/
def Vec3Q.scale (a : Vec3Q) (s : ℚ) : Vec3Q := ⟨a.x * s, a.y * s, a.z * s⟩

/-- Model of `Vec3::lerp(a, b, t) = a + (b - a) * t`. -/
def Vec3Q.lerp (a b : Vec3Q) (t : ℚ) : Vec3Q :=
  a.add ((b.sub a).scale t)

/-- Model of `PlayerInput` on the arithmetic tier. -/
structure PlayerInputQ where
  sequence : ℕ
  tick : ℕ
  keys : ℕ
  yaw : ℚ
  pitch : ℚ
  deltaTime : ℚ
deriving DecidableEq

/-- Model of `PlayerState` on the arithmetic tier. -/
structure PlayerStateQ where
  playerId : ℕ
  tick : ℕ
  position : Vec3Q
  yaw : ℚ
  pitch : ℚ
  lastProcessedInput : ℕ
deriving DecidableEq

/-- Model of `Host::applyInput` (net_host.hpp:306-342), the shared movement rule:
`velocity = 5.0f * deltaTime`, `yawRad = yaw * M_PI / 180`, then one
translation per key bit (W=1, S=2, A=4, D=8, SPACE=16, SHIFT=32), then
`yaw`/`pitch` adopted from the input and `tick` set to `currentTick_`.
The `players_.find` guard is outside this function: it is applied to the
player state that the host holds for the connection's player id. -/
def Host.applyInput (piv : ℚ) (cosf sinf : ℚ → ℚ) (currentTick : ℕ)
    (state : PlayerStateQ) (input : PlayerInputQ) : PlayerStateQ :=
  let velocity : ℚ := 5 * input.deltaTime
  let yawRad : ℚ := input.yaw * piv / 180
  let p0 := state.position
  let p1 := if input.keys &&& 0x01 ≠ 0 then
    { p0 with x := p0.x + cosf yawRad * velocity,
              z := p0.z + sinf yawRad * velocity } else p0
  let p2 := if input.keys &&& 0x02 ≠ 0 then
    { p1 with x := p1.x - cosf yawRad * velocity,
              z := p1.z - sinf yawRad * velocity } else p1
  let p3 := if input.keys &&& 0x04 ≠ 0 then
    { p2 with x := p2.x + sinf yawRad * velocity,
              z := p2.z - cosf yawRad * velocity } else p2
  let p4 := if input.keys &&& 0x08 ≠ 0 then
    { p3 with x := p3.x - sinf yawRad * velocity,
              z := p3.z + cosf yawRad * velocity } else p3
  let p5 := if input.keys &&& 0x10 ≠ 0 then
    { p4 with y := p4.y + velocity } else p4
  let p6 := if input.keys &&& 0x20 ≠ 0 then
    { p5 with y := p5.y - velocity } else p5
  { state with position := p6, yaw := input.yaw, pitch := input.pitch,
               tick := currentTick }

/-- Model of `Client::applyInputToState` (net_client.hpp:438-463): the client's copy
of the movement rule (it does not touch `tick`). -/
def Client.applyInputToState (piv : ℚ) (cosf sinf : ℚ → ℚ)
    (state : PlayerStateQ) (input : PlayerInputQ) : PlayerStateQ :=
  let velocity : ℚ := 5 * input.deltaTime
  let yawRad : ℚ := input.yaw * piv / 180
  let p0 := state.position
  let p1 := if input.keys &&& 0x01 ≠ 0 then
    { p0 with x := p0.x + cosf yawRad * velocity,
              z := p0.z + sinf yawRad * velocity } else p0
  let p2 := if input.keys &&& 0x02 ≠ 0 then
    { p1 with x := p1.x - cosf yawRad * velocity,
              z := p1.z - sinf yawRad * velocity } else p1
  let p3 := if input.keys &&& 0x04 ≠ 0 then
    { p2 with x := p2.x + sinf yawRad * velocity,
              z := p2.z - cosf yawRad * velocity } else p2
  let p4 := if input.keys &&& 0x08 ≠ 0 then
    { p3 with x := p3.x - sinf yawRad * velocity,
              z := p3.z + cosf yawRad * velocity } else p3
  let p5 := if input.keys &&& 0x10 ≠ 0 then
    { p4 with y := p4.y + velocity } else p4
  let p6 := if input.keys &&& 0x20 ≠ 0 then
    { p5 with y := p5.y - velocity } else p5
  { state with position := p6, yaw := input.yaw, pitch := input.pitch }

/-- The pending-input drain of `Host::processTick` (net_host.hpp:285-304)
for one connection: pop inputs in FIFO order; an input with
`sequence > lastProcessedInput` is applied via `applyInput` and advances
`lastProcessedInput` (mirrored into the player state); others are dropped
as duplicates.  Returns the final player state and `lastProcessedInput`. -/
def Host.processPendingInputs (piv : ℚ) (cosf sinf : ℚ → ℚ)
    (currentTick : ℕ) :
    PlayerStateQ → ℕ → List PlayerInputQ → PlayerStateQ × ℕ
  | state, lastProcessedInput, [] => (state, lastProcessedInput)
  | state, lastProcessedInput, input :: rest =>
    if input.sequence > lastProcessedInput then
      Host.processPendingInputs piv cosf sinf currentTick
        { Host.applyInput piv cosf sinf currentTick state input with
            lastProcessedInput := input.sequence }
        input.sequence rest
    else
      Host.processPendingInputs piv cosf sinf currentTick state
        lastProcessedInput rest

/-- The local-prediction step of `Client::sendInput` (net_client.hpp:139-148):
apply the client movement rule to the current local state and stamp the
prediction with `serverTick_`. -/
def Client.predictStep (piv : ℚ) (cosf sinf : ℚ → ℚ) (serverTick : ℕ)
    (state : PlayerStateQ) (input : PlayerInputQ) : PlayerStateQ :=
  { Client.applyInputToState piv cosf sinf state input with
      tick := serverTick }

/-- Repeated `Client::sendInput` local prediction over a list of inputs. -/
def Client.predictAll (piv : ℚ) (cosf sinf : ℚ → ℚ) (serverTick : ℕ)
    (state : PlayerStateQ) (inputs : List PlayerInputQ) : PlayerStateQ :=
  inputs.foldl (Client.predictStep piv cosf sinf serverTick) state

/-- Concrete state for witnesses on the arithmetic tier. -/
def stC1 : PlayerStateQ :=
  { playerId := 3, tick := 0, position := ⟨0, 17 / 10, 5⟩, yaw := -90,
    pitch := 0, lastProcessedInput := 0 }

/-- Concrete input (W pressed) for witnesses on the arithmetic tier. -/
def inC1a : PlayerInputQ :=
  { sequence := 1, tick := 0, keys := 1, yaw := 0, pitch := 0,
    deltaTime := 1 / 100 }

/-- Second concrete input (S and SPACE pressed). -/
def inC1b : PlayerInputQ :=
  { sequence := 2, tick := 0, keys := 18, yaw := 45, pitch := 1,
    deltaTime := 1 / 50 }

/-- Model of `InputHistory` (net_common.hpp:375-405) on the arithmetic tier: a ring
of capacity `INPUT_BUFFER_SIZE = 64` holding `(input, predicted state)`
pairs; the backing arrays are modelled as total functions indexed mod 64. -/
structure InputHistoryQ where
  inputs : ℕ → PlayerInputQ
  predictedStates : ℕ → PlayerStateQ
  head : ℕ
  count : ℕ

/-- Model of `InputHistory::addInput`: write at `(head + count) % 64`; grow `count`
until full, then advance `head` (overwrite-oldest). -/
def InputHistoryQ.addInput (h : InputHistoryQ) (input : PlayerInputQ)
    (predicted : PlayerStateQ) : InputHistoryQ :=
  let idx := (h.head + h.count) % INPUT_BUFFER_SIZE
  { h with
    inputs := Function.update h.inputs idx input,
    predictedStates := Function.update h.predictedStates idx predicted,
    count := if h.count < INPUT_BUFFER_SIZE then h.count + 1 else h.count,
    head := if h.count < INPUT_BUFFER_SIZE then h.head
            else (h.head + 1) % INPUT_BUFFER_SIZE }

/-- The `while (count > 0 && inputs[head].sequence <= sequence)` loop of
`InputHistory::acknowledgeUpTo`, returning the final `(head, count)`. -/
def InputHistoryQ.ackLoop (inputs : ℕ → PlayerInputQ) (seq : ℕ) :
    ℕ → ℕ → ℕ × ℕ
  | head, 0 => (head, 0)
  | head, c + 1 =>
    if (inputs head).sequence ≤ seq then
      InputHistoryQ.ackLoop inputs seq ((head + 1) % INPUT_BUFFER_SIZE) c
    else (head, c + 1)

/-- Model of `InputHistory::acknowledgeUpTo` (net_common.hpp:390-395). -/
def InputHistoryQ.acknowledgeUpTo (h : InputHistoryQ) (seq : ℕ) :
    InputHistoryQ :=
  let r := InputHistoryQ.ackLoop h.inputs seq h.head h.count
  { h with head := r.1, count := r.2 }

/-- Model of `InputHistory::getUnacknowledged` (net_common.hpp:398-404): the logical
slice `[head, head + count)` in order. -/
def InputHistoryQ.getUnacknowledged (h : InputHistoryQ) :
    List PlayerInputQ :=
  (List.range h.count).map fun i =>
    h.inputs ((h.head + i) % INPUT_BUFFER_SIZE)

/-- The logical slice `[head, head + count)` is sorted (non-decreasing) by
sequence number — the invariant the client maintains by always adding
inputs with `++inputSequence_`. -/
def InputHistoryQ.sortedSlice (h : InputHistoryQ) : Prop :=
  ∀ j < h.count, ∀ i ≤ j,
    (h.inputs ((h.head + i) % INPUT_BUFFER_SIZE)).sequence ≤
    (h.inputs ((h.head + j) % INPUT_BUFFER_SIZE)).sequence

instance (h : InputHistoryQ) : Decidable h.sortedSlice := by
  unfold InputHistoryQ.sortedSlice; infer_instance

/-- The unsorted history refuting claim C8 as stated: slice `[5, 1]`. -/
def histCex : InputHistoryQ :=
  { inputs := fun n =>
      if n = 0 then ⟨5, 0, 0, 0, 0, 0⟩ else ⟨1, 0, 0, 0, 0, 0⟩,
    predictedStates := fun _ => ⟨0, 0, ⟨0, 0, 0⟩, 0, 0, 0⟩,
    head := 0, count := 2 }

/-- Sorted history (sequences 1..10) for the C8 witness. -/
def histW : InputHistoryQ :=
  { inputs := fun n => ⟨n % INPUT_BUFFER_SIZE + 1, 0, 0, 0, 0, 0⟩,
    predictedStates := fun _ => ⟨0, 0, ⟨0, 0, 0⟩, 0, 0, 0⟩,
    head := 0, count := 10 }

/-- The fields of `Client` that `reconcileState` touches. -/
structure ReconcileCtx where
  localState : PlayerStateQ
  lastServerState : PlayerStateQ
  inputHistory : InputHistoryQ

/-- Model of `Client::reconcileState` (net_client.hpp:403-436): record the server
state, acknowledge processed inputs, measure the position error with
`sqrtf`, and if it exceeds 0.01 rebuild `corrected` by re-applying the
remaining unacknowledged inputs to the server state, then either blend one
step of factor 0.1 towards it (error < 1.0) or snap to it (error ≥ 1.0).
The float literals 0.01, 0.1, 1.0 are exact in `float`⁠-to-ℚ spirit modelled
as the rationals 1/100, 1/10, 1. -/
def Client.reconcileState (piv : ℚ) (cosf sinf sqrtf : ℚ → ℚ)
    (c : ReconcileCtx) (serverState : PlayerStateQ) : ReconcileCtx :=
  let c1 : ReconcileCtx := { c with lastServerState := serverState }
  let c2 : ReconcileCtx := { c1 with
    inputHistory := c1.inputHistory.acknowledgeUpTo
      serverState.lastProcessedInput }
  let error := serverState.position.sub c2.localState.position
  let errorMag := sqrtf (error.x * error.x + error.y * error.y +
    error.z * error.z)
  if errorMag > 1 / 100 then
    let corrected := (c2.inputHistory.getUnacknowledged).foldl
      (Client.applyInputToState piv cosf sinf) serverState
    if errorMag < 1 then
      { c2 with localState := { c2.localState with position :=
          { x := c2.localState.position.x +
              (corrected.position.x - c2.localState.position.x) * (1 / 10),
            y := c2.localState.position.y +
              (corrected.position.y - c2.localState.position.y) * (1 / 10),
            z := c2.localState.position.z +
              (corrected.position.z - c2.localState.position.z) *
                (1 / 10) } } }
    else
      { c2 with localState :=
          { c2.localState with position := corrected.position } }
  else c2

/-- Empty input history for witnesses. -/
def histEmpty : InputHistoryQ :=
  ⟨fun _ => ⟨0, 0, 0, 0, 0, 0⟩, fun _ => ⟨0, 0, ⟨0, 0, 0⟩, 0, 0, 0⟩, 0, 0⟩

/-- Concrete reconciliation context for the C4 witness. -/
def ctxC4 : ReconcileCtx :=
  ⟨⟨1, 0, ⟨0, 0, 0⟩, 0, 0, 0⟩, ⟨0, 0, ⟨0, 0, 0⟩, 0, 0, 0⟩, histEmpty⟩

/-- Concrete authoritative server state for the C4 witness (position error
2, so the snap branch applies). -/
def srvC4 : PlayerStateQ := ⟨1, 7, ⟨2, 0, 0⟩, 30, 5, 4⟩

/-- Model of `InterpolationState` (net_common.hpp:323-368) on the arithmetic tier:
a circular buffer of `STATE_BUFFER_SIZE = 128` player states, modelled as
a total function indexed mod 128, plus the total insertion count. -/
structure InterpolationStateQ where
  states : ℕ → PlayerStateQ
  count : ℕ

/-- Model of `InterpolationState::addState`: write at `count % 128`, bump `count`. -/
def InterpolationStateQ.addState (b : InterpolationStateQ)
    (s : PlayerStateQ) : InterpolationStateQ :=
  { states := Function.update b.states (b.count % STATE_BUFFER_SIZE) s,
    count := b.count + 1 }

/-- The scan of `InterpolationState::interpolate`: the first index `i`
(newest to oldest insertion order) whose state has `tick ≤ targetTick`. -/
def InterpolationStateQ.findBeforeIdx (b : InterpolationStateQ)
    (targetTick : ℕ) : Option ℕ :=
  (List.range (min b.count STATE_BUFFER_SIZE)).find? fun i =>
    (b.states ((b.count - 1 - i) % STATE_BUFFER_SIZE)).tick ≤ targetTick

/-- Model of `InterpolationState::interpolate` (net_common.hpp:333-368), returning
`some out` for `true` plus the out-parameter.  `uint32_t` tick differences
are exact here because `before.tick ≤ targetTick` in the reached branch;
`after.tick - before.tick` is Nat subtraction of `uint32` values (the
division is exact-rational where the source divides floats). -/
def InterpolationStateQ.interpolate (b : InterpolationStateQ)
    (targetTick : ℕ) : Option PlayerStateQ :=
  if b.count < 2 then none
  else
    match b.findBeforeIdx targetTick with
    | none => none
    | some i =>
      let before := b.states ((b.count - 1 - i) % STATE_BUFFER_SIZE)
      if i = 0 then some before
      else
        let after := b.states ((b.count - i) % STATE_BUFFER_SIZE)
        let t0 : ℚ := ((targetTick - before.tick : ℕ) : ℚ) /
          ((after.tick - before.tick : ℕ) : ℚ)
        let t := max 0 (min 1 t0)
        some { playerId := before.playerId, tick := targetTick,
               position := before.position.lerp after.position t,
               yaw := before.yaw + (after.yaw - before.yaw) * t,
               pitch := before.pitch + (after.pitch - before.pitch) * t,
               lastProcessedInput := after.lastProcessedInput }

/-- A single-state buffer (tick 0): the input refuting claim C7 as
stated. -/
def interpCex : InterpolationStateQ :=
  ⟨fun _ => ⟨1, 0, ⟨0, 0, 0⟩, 0, 0, 0⟩, 1⟩

/-- Two-state buffer for the C7 witness: ticks 100 and 110, the newest
below the target tick 115. -/
def interpW : InterpolationStateQ :=
  ⟨fun n => if n = 0 then ⟨1, 100, ⟨0, 0, 0⟩, 0, 0, 0⟩
            else ⟨1, 110, ⟨10, 0, 0⟩, 0, 0, 7⟩, 2⟩

/-! Byte-level peer models for packet dispatch (net_client.hpp /
net_host.hpp).  `unordered_map`s are modelled as association lists (their
iteration order is unspecified in C++; list order stands in for it); the
socket, `printf` and the event callbacks are I/O and have no bearing on
peer state; `getTime()` results are passed in as parameters. -/

/-- Model of `ConnectionState` (net_common.hpp:287-292). -/
inductive ConnState where
  | DISCONNECTED
  | CONNECTING
  | CONNECTED
  | DISCONNECTING
deriving DecidableEq

/-- Model of `unordered_map` assignment `m[k] = v` (insert or overwrite). -/
def mapSet {α : Type} (m : List (ℕ × α)) (k : ℕ) (v : α) : List (ℕ × α) :=
  if m.any (fun p => p.1 == k) then
    m.map fun p => if p.1 = k then (k, v) else p
  else m ++ [(k, v)]

/-- Model of `unordered_map` lookup with a default (`operator[]` read side). -/
def mapGetD {α : Type} (m : List (ℕ × α)) (k : ℕ) (d : α) : α :=
  match m.find? (fun p => p.1 == k) with
  | some p => p.2
  | none => d

/-- Model of `unordered_map::erase`. -/
def mapErase {α : Type} (m : List (ℕ × α)) (k : ℕ) : List (ℕ × α) :=
  m.filter fun p => p.1 ≠ k

/-- Bit pattern of the float `1.7f` (spawn y). -/
def bitsOne7 : ℕ := 0x3FD9999A

/-- Bit pattern of the float `5.0f` (spawn z). -/
def bitsFive : ℕ := 0x40A00000

/-- Bit pattern of the float `-90.0f` (spawn yaw). -/
def bitsNeg90 : ℕ := 0xC2B40000

/-- Model of `InterpolationState` on the wire tier (per remote player). -/
structure InterpolationStateW where
  states : ℕ → PlayerStateW
  count : ℕ

/-- Value-initialized `InterpolationState` (`count = 0`). -/
def InterpolationStateW.mkDefault : InterpolationStateW :=
  ⟨fun _ => ⟨0, 0, 0, 0, 0, 0, 0, 0⟩, 0⟩

/-- Model of `InterpolationState::addState` on the wire tier. -/
def InterpolationStateW.addState (b : InterpolationStateW)
    (s : PlayerStateW) : InterpolationStateW :=
  { states := Function.update b.states (b.count % STATE_BUFFER_SIZE) s,
    count := b.count + 1 }

/-- Model of `InputHistory` on the wire tier (only its `head`/`count` reset matters
to the dispatch paths modelled here). -/
structure InputHistoryW where
  inputs : ℕ → PlayerInputW
  predictedStates : ℕ → PlayerStateW
  head : ℕ
  count : ℕ

/-- The `Client` state fields (net_client.hpp:219-240).  `reconcileState`
performs float arithmetic on decoded values and is modelled separately on
the arithmetic tier (`Client.reconcileState`); the byte-level dispatch is
therefore parametric in a `reconcileFn` standing for it. -/
structure ClientM where
  state : ConnState
  playerId : ℕ
  serverTick : ℕ
  localSequence : ℕ
  remoteSequence : ℕ
  ackBits : ℕ
  inputSequence : ℕ
  lastSendTime : ℚ
  lastReceiveTime : ℚ
  rtt : ℚ
  localState : PlayerStateW
  lastServerState : PlayerStateW
  remotePlayers : List (ℕ × PlayerStateW)
  interpolationStates : List (ℕ × InterpolationStateW)
  inputHistory : InputHistoryW

/-- Model of `Client::disconnect` (net_client.hpp:71-91): when not already
DISCONNECTED, `sendDisconnect` bumps `localSequence_` and the state drops
to DISCONNECTED; then the remote-player and interpolation maps are cleared
and the input history is reset (socket teardown and `onDisconnected` are
I/O). -/
def ClientM.disconnect (c : ClientM) : ClientM :=
  let c1 := if c.state ≠ ConnState.DISCONNECTED then
      { c with localSequence := c.localSequence + 1,
               state := ConnState.DISCONNECTED }
    else c
  { c1 with
    remotePlayers := [], interpolationStates := [],
    inputHistory := { c1.inputHistory with count := 0, head := 0 } }

/-- Model of `Client::handleConnectAccept` (net_client.hpp:311-327): read playerId
and serverTick, become CONNECTED, re-initialize the local player at the
spawn point (0, 1.7, 5), yaw −90°, pitch 0, tick = serverTick.  Note there
is no check of the current connection state. -/
def ClientM.handleConnectAccept (c : ClientM) (buffer : PacketBuffer) :
    ClientM × PacketBuffer :=
  let r1 := buffer.readU32
  let r2 := r1.2.readU32
  ({ c with
     playerId := r1.1, serverTick := r2.1,
     state := ConnState.CONNECTED,
     localState := { c.localState with
                     playerId := r1.1,
                     posX := 0, posY := bitsOne7, posZ := bitsFive,
                     yaw := bitsNeg90, pitch := 0, tick := r2.1 } }, r2.2)

/-- The per-state loop of `Client::handleStateUpdate`
(net_client.hpp:334-345): `reconcileFn` stands for `reconcileState` on the
local player's state; remote states go to the last-known map and the
interpolation buffer. -/
def ClientM.readStatesLoop (reconcileFn : ClientM → PlayerStateW → ClientM) :
    ℕ → ClientM → PacketBuffer → ClientM × PacketBuffer
  | 0, c, b => (c, b)
  | n + 1, c, b =>
    let r := b.readPlayerState
    let c' := if r.1.playerId = c.playerId then reconcileFn c r.1
      else { c with
        remotePlayers := mapSet c.remotePlayers r.1.playerId r.1,
        interpolationStates := mapSet c.interpolationStates r.1.playerId
          ((mapGetD c.interpolationStates r.1.playerId
            InterpolationStateW.mkDefault).addState r.1) }
    ClientM.readStatesLoop reconcileFn n c' r.2

/-- Model of `Client::handleStateUpdate` (net_client.hpp:329-346). -/
def ClientM.handleStateUpdate
    (reconcileFn : ClientM → PlayerStateW → ClientM) (c : ClientM)
    (header : PacketHeader) (buffer : PacketBuffer) :
    ClientM × PacketBuffer :=
  let c1 := { c with serverTick := header.tick }
  let r := buffer.readU8
  ClientM.readStatesLoop reconcileFn r.1 c1 r.2

/-- The player loop of `Client::handleWorldSnapshot`
(net_client.hpp:350-361): the local player's state is overwritten directly
(no reconciliation). -/
def ClientM.readSnapshotStatesLoop :
    ℕ → ClientM → PacketBuffer → ClientM × PacketBuffer
  | 0, c, b => (c, b)
  | n + 1, c, b =>
    let r := b.readPlayerState
    let c' := if r.1.playerId = c.playerId then
        { c with localState := r.1, lastServerState := r.1 }
      else { c with
        remotePlayers := mapSet c.remotePlayers r.1.playerId r.1,
        interpolationStates := mapSet c.interpolationStates r.1.playerId
          ((mapGetD c.interpolationStates r.1.playerId
            InterpolationStateW.mkDefault).addState r.1) }
    ClientM.readSnapshotStatesLoop n c' r.2

/-- The entity loop of `Client::handleWorldSnapshot`
(net_client.hpp:364-370): entities only feed the `onEntityCreated`
callback (I/O), so only the buffer cursor advances. -/
def ClientM.readEntitiesLoop : ℕ → PacketBuffer → PacketBuffer
  | 0, b => b
  | n + 1, b => ClientM.readEntitiesLoop n (b.readEntityState).2

/-- Model of `Client::handleWorldSnapshot` (net_client.hpp:348-374). -/
def ClientM.handleWorldSnapshot (c : ClientM) (buffer : PacketBuffer) :
    ClientM × PacketBuffer :=
  let rp := buffer.readU8
  let rc := ClientM.readSnapshotStatesLoop rp.1 c rp.2
  let re := rc.2.readU8
  (rc.1, ClientM.readEntitiesLoop re.1 re.2)

/-- Model of `Client::handleEntityCreate` (net_client.hpp:376-390): a type-0 entity
becomes a value-initialized remote `PlayerState` with the decoded id and
position. -/
def ClientM.handleEntityCreate (c : ClientM) (buffer : PacketBuffer) :
    ClientM × PacketBuffer :=
  let r1 := buffer.readU32
  let r2 := r1.2.readU8
  let rx := r2.2.readFloat
  let ry := rx.2.readFloat
  let rz := ry.2.readFloat
  let c' := if r2.1 = 0 then
      { c with
        remotePlayers := mapSet c.remotePlayers r1.1
          { playerId := r1.1, tick := 0, posX := rx.1, posY := ry.1,
            posZ := rz.1, yaw := 0, pitch := 0,
            lastProcessedInput := 0 } }
    else c
  (c', rz.2)

/-- Model of `Client::handleEntityDestroy` (net_client.hpp:392-401). -/
def ClientM.handleEntityDestroy (c : ClientM) (buffer : PacketBuffer) :
    ClientM × PacketBuffer :=
  let r := buffer.readU32
  ({ c with
     remotePlayers := mapErase c.remotePlayers r.1,
     interpolationStates := mapErase c.interpolationStates r.1 }, r.2)

/-- Model of `Client::handlePacket` (net_client.hpp:267-309): stamp
`lastReceiveTime_`, update the ack bookkeeping, then dispatch on the type
byte (CONNECT_ACCEPT 2, CONNECT_REJECT 3, DISCONNECT 4, HEARTBEAT 5,
STATE_UPDATE 0x11, WORLD_SNAPSHOT 0x12, ENTITY_CREATE 0x20,
ENTITY_DESTROY 0x21; anything else falls through). -/
def ClientM.handlePacket (reconcileFn : ClientM → PlayerStateW → ClientM)
    (c : ClientM) (header : PacketHeader) (buffer : PacketBuffer)
    (now : ℚ) : ClientM :=
  let c0 := { c with lastReceiveTime := now }
  let acks := Client.updateAcks c0.remoteSequence c0.ackBits header.sequence
  let c1 := { c0 with remoteSequence := acks.1, ackBits := acks.2 }
  if header.type = 2 then (c1.handleConnectAccept buffer).1
  else if header.type = 3 then c1.disconnect
  else if header.type = 4 then c1.disconnect
  else if header.type = 5 then c1
  else if header.type = 0x11 then
    (ClientM.handleStateUpdate reconcileFn c1 header buffer).1
  else if header.type = 0x12 then (c1.handleWorldSnapshot buffer).1
  else if header.type = 0x20 then (c1.handleEntityCreate buffer).1
  else if header.type = 0x21 then (c1.handleEntityDestroy buffer).1
  else c1

/-- One iteration of the drain loop in `Client::receivePackets`
(net_client.hpp:247-265) for a received datagram `bytes`: load the buffer
(`writePos = received`, `readPos = 0`), read the header, drop the datagram
unless the magic is valid, else dispatch. -/
def ClientM.processDatagram (reconcileFn : ClientM → PlayerStateW → ClientM)
    (c : ClientM) (bytes : List ℕ) (now : ℚ) : ClientM :=
  let r := (bufAt bytes 0).readHeader
  if r.1.isValid then ClientM.handlePacket reconcileFn c r.1 r.2 now else c

/-- Model of `Connection` (net_common.hpp:294-317); the peer address is opaque here
(an exact `sin_addr`+`sin_port` match is an equality test on it). -/
structure ConnectionM where
  playerId : ℕ
  address : ℕ
  state : ConnState
  localSequence : ℕ
  remoteSequence : ℕ
  ackBits : ℕ
  lastReceiveTime : ℚ
  lastSendTime : ℚ
  rtt : ℚ
  pendingInputs : List PlayerInputW
  lastProcessedInput : ℕ

/-- The `Connection` default constructor (net_common.hpp:311-316). -/
def ConnectionM.mkDefault : ConnectionM :=
  ⟨0, 0, ConnState.DISCONNECTED, 0, 0, 0, 0, 0, 1 / 10, [], 0⟩

/-- The `Host` state fields a packet can touch (net_host.hpp:132-142). -/
structure HostM where
  currentTick : ℕ
  nextPlayerId : ℕ
  connections : List (ℕ × ConnectionM)
  players : List (ℕ × PlayerStateW)

/-- The new-player path of `Host::handleConnectRequest`
(net_host.hpp:227-254): allocate `nextPlayerId_++`; the new connection is
CONNECTED with `lastReceiveTime = now`; the player spawns at (0, 1.7, 5)
yaw −90°; CONNECT_ACCEPT and WORLD_SNAPSHOT each bump the new connection's
`localSequence` (CONNECT_ACCEPT also sets `lastSendTime := getTime()`,
passed as `time`), and ENTITY_CREATE is broadcast to every other CONNECTED
connection, bumping each one's `localSequence`. -/
def HostM.createConnection (h : HostM) (fromAddr : ℕ) (now time : ℚ) :
    HostM :=
  let playerId := h.nextPlayerId
  let conn0 := { ConnectionM.mkDefault with
                 playerId := playerId, address := fromAddr,
                 state := ConnState.CONNECTED, lastReceiveTime := now,
                 localSequence := 0, remoteSequence := 0 }
  let player : PlayerStateW :=
    { playerId := playerId, tick := 0, posX := 0, posY := bitsOne7,
      posZ := bitsFive, yaw := bitsNeg90, pitch := 0,
      lastProcessedInput := 0 }
  let conn1 := { conn0 with
                 localSequence := conn0.localSequence + 2,
                 lastSendTime := time }
  let h1 := { h with
    nextPlayerId := h.nextPlayerId + 1,
    connections := mapSet h.connections playerId conn1,
    players := mapSet h.players playerId player }
  { h1 with
    connections := h1.connections.map fun (p : ℕ × ConnectionM) =>
      if p.2.state = ConnState.CONNECTED ∧ p.1 ≠ playerId then
        (p.1, { p.2 with localSequence := p.2.localSequence + 1 })
      else p }

/-- Model of `Host::handleConnectRequest` (net_host.hpp:219-255): a duplicate
request from an endpoint that is already CONNECTED only re-sends
CONNECT_ACCEPT (bumping that connection's `localSequence` and
`lastSendTime`); otherwise a fresh player is created. -/
def HostM.handleConnectRequest (h : HostM) (fromAddr : ℕ) (now time : ℚ) :
    HostM :=
  match h.connections.find? (fun p => p.2.address == fromAddr) with
  | some (cid, conn) =>
    if conn.state = ConnState.CONNECTED then
      { h with
        connections := mapSet h.connections cid
          { conn with localSequence := conn.localSequence + 1,
                      lastSendTime := time } }
    else
      HostM.createConnection h fromAddr now time
  | none => HostM.createConnection h fromAddr now time

/-- Model of `Host::handleDisconnect` (net_host.hpp:257-269): broadcast
ENTITY_DESTROY (bumping every CONNECTED connection's `localSequence`,
including the leaver's, still present during the broadcast), then erase
the player state and the connection. -/
def HostM.handleDisconnect (h : HostM) (playerId : ℕ) : HostM :=
  let h1 := { h with
    connections := h.connections.map fun (p : ℕ × ConnectionM) =>
      if p.2.state = ConnState.CONNECTED then
        (p.1, { p.2 with localSequence := p.2.localSequence + 1 })
      else p }
  { h1 with players := mapErase h1.players playerId,
            connections := mapErase h1.connections playerId }

/-- The decode loop of `Host::handleInput` (net_host.hpp:271-283):
`payloadSize / 21` inputs are read; those with
`sequence > lastProcessedInput` are appended to `pendingInputs`. -/
def HostM.readInputsLoop (lastProcessedInput : ℕ) :
    ℕ → List PlayerInputW → PacketBuffer → List PlayerInputW × PacketBuffer
  | 0, acc, b => (acc, b)
  | n + 1, acc, b =>
    let r := b.readPlayerInput
    let acc' := if lastProcessedInput < r.1.sequence then acc ++ [r.1]
                else acc
    HostM.readInputsLoop lastProcessedInput n acc' r.2

/-- Model of `Host::handlePacket` (net_host.hpp:169-208): find the connection by
sender address, then dispatch on the type byte (CONNECT_REQUEST 1,
DISCONNECT 4, HEARTBEAT 5, INPUT 0x10, ACK 0x30; anything else is
ignored).  Packets needing a connection are dropped from unknown peers;
INPUT additionally requires the connection to be CONNECTED. -/
def HostM.handlePacket (h : HostM) (header : PacketHeader)
    (buffer : PacketBuffer) (fromAddr : ℕ) (now time : ℚ) : HostM :=
  if header.type = 1 then h.handleConnectRequest fromAddr now time
  else if header.type = 4 then
    match h.connections.find? (fun p => p.2.address == fromAddr) with
    | some (_, conn) => h.handleDisconnect conn.playerId
    | none => h
  else if header.type = 5 ∨ header.type = 0x30 then
    match h.connections.find? (fun p => p.2.address == fromAddr) with
    | some (cid, conn) =>
      let acks := Host.updateAcks conn.remoteSequence conn.ackBits
        header.sequence
      { h with
        connections := mapSet h.connections cid
          { conn with lastReceiveTime := now, remoteSequence := acks.1,
                      ackBits := acks.2 } }
    | none => h
  else if header.type = 0x10 then
    match h.connections.find? (fun p => p.2.address == fromAddr) with
    | some (cid, conn) =>
      if conn.state = ConnState.CONNECTED then
        let acks := Host.updateAcks conn.remoteSequence conn.ackBits
          header.sequence
        let ri := HostM.readInputsLoop conn.lastProcessedInput
          (header.payloadSize / 21) [] buffer
        { h with
          connections := mapSet h.connections cid
            { conn with lastReceiveTime := now, remoteSequence := acks.1,
                        ackBits := acks.2,
                        pendingInputs := conn.pendingInputs ++ ri.1 } }
      else h
    | none => h
  else h

/-- One iteration of the drain loop in `Host::receivePackets`
(net_host.hpp:149-167) for a received datagram `bytes` from `fromAddr`. -/
def HostM.processDatagram (h : HostM) (bytes : List ℕ) (fromAddr : ℕ)
    (now time : ℚ) : HostM :=
  let r := (bufAt bytes 0).readHeader
  if r.1.isValid then h.handlePacket r.1 r.2 fromAddr now time else h

/-- A CONNECTED client with distinctive field values, used by the C3 and
C6 counterexamples. -/
def clientCex : ClientM :=
  { state := ConnState.CONNECTED, playerId := 7, serverTick := 40,
    localSequence := 3, remoteSequence := 9, ackBits := 5,
    inputSequence := 11, lastSendTime := 2, lastReceiveTime := 0,
    rtt := 1 / 10,
    localState := ⟨7, 40, 1, 2, 3, 4, 5, 6⟩,
    lastServerState := ⟨7, 39, 1, 2, 3, 4, 5, 6⟩,
    remotePlayers := [], interpolationStates := [],
    inputHistory := ⟨fun _ => ⟨0, 0, 0, 0, 0, 0⟩,
      fun _ => ⟨0, 0, 0, 0, 0, 0, 0, 0⟩, 0, 0⟩ }

/-- A small concrete host state for witnesses. -/
def hostEx : HostM := ⟨0, 1, [], []⟩

/-- The wire bytes of a CONNECT_ACCEPT datagram carrying playerId 42 and
serverTick 100 (23-byte header, type 2, sequence 1, then the payload). -/
def acceptBytes : List ℕ :=
  [80, 85, 76, 83, 2, 1, 0, 0, 0, 0, 0, 0, 0, 0, 0, 0, 0, 0, 0, 0, 0,
   8, 0, 42, 0, 0, 0, 100, 0, 0, 0]

/-- Concrete CONNECT_ACCEPT header for the C6 witness. -/
def hdrAcceptW : PacketHeader :=
  { PacketHeader.mkDefault with type := 2, sequence := 1 }

/-- Concrete CONNECT_ACCEPT payload buffer for the C6 witness. -/
def bufAcceptW : PacketBuffer := bufAt [42, 0, 0, 0, 100, 0, 0, 0] 0

lemma fresh_eq_bufAt : PacketBuffer.fresh = bufAt [] 0 := by
  unfold PacketBuffer.fresh bufAt
  simp

lemma writeU8_bufAt (l : List ℕ) (p v : ℕ) (h : l.length < 1400) :
    (bufAt l p).writeU8 v = bufAt (l ++ [v % 256]) p := by
  unfold bufAt PacketBuffer.writeU8 MAX_PACKET_SIZE
  simp only [h, if_true]
  simp only [PacketBuffer.mk.injEq]
  refine ⟨?_, by simp, trivial⟩
  funext i
  rcases lt_trichotomy i l.length with hi | hi | hi
  · rw [Function.update_noteq (by omega), List.getD_append _ _ _ _ hi]
  · subst hi
    rw [Function.update_same, List.getD_append_right _ _ _ _ le_rfl]
    simp
  · rw [Function.update_noteq (by omega),
      List.getD_append_right _ _ _ _ (by omega)]
    rw [List.getD_eq_default _ _ (by omega), List.getD_eq_default _ _ (by simp; omega)]

lemma writeU16_bufAt (l : List ℕ) (p v : ℕ) (h : l.length + 2 ≤ 1400) :
    (bufAt l p).writeU16 v = bufAt (l ++ [v % 256, (v / 256) % 256]) p := by
  unfold PacketBuffer.writeU16
  rw [writeU8_bufAt _ _ _ (by omega), writeU8_bufAt _ _ _ (by simp; omega)]
  have h1 : v % 256 % 256 = v % 256 := by omega
  have h2 : v / 256 % 256 % 256 = v / 256 % 256 := by omega
  rw [h1, h2, List.append_assoc]
  rfl

lemma writeU32_bufAt (l : List ℕ) (p v : ℕ) (h : l.length + 4 ≤ 1400) :
    (bufAt l p).writeU32 v =
      bufAt (l ++ [v % 65536 % 256, v % 65536 / 256 % 256,
        v / 65536 % 65536 % 256, v / 65536 % 65536 / 256 % 256]) p := by
  unfold PacketBuffer.writeU32
  rw [writeU16_bufAt _ _ _ (by omega), writeU16_bufAt _ _ _ (by simp; omega)]
  rw [List.append_assoc]
  rfl

lemma writeFloat_bufAt (l : List ℕ) (p v : ℕ) (h : l.length + 4 ≤ 1400) :
    (bufAt l p).writeFloat v =
      bufAt (l ++ [v % 65536 % 256, v % 65536 / 256 % 256,
        v / 65536 % 65536 % 256, v / 65536 % 65536 / 256 % 256]) p :=
  writeU32_bufAt l p v h

lemma writeBytes_bufAt (l src : List ℕ) (p : ℕ)
    (h : l.length + src.length ≤ 1400) :
    (bufAt l p).writeBytes src = bufAt (l ++ src.map (· % 256)) p := by
  unfold bufAt PacketBuffer.writeBytes MAX_PACKET_SIZE
  simp only [h, if_true]
  simp only [PacketBuffer.mk.injEq]
  refine ⟨?_, by simp, trivial⟩
  funext i
  by_cases hi : l.length ≤ i ∧ i < l.length + src.length
  · simp only [hi, and_self, if_true]
    rcases hi with ⟨hi1, hi2⟩
    have hlt : i - l.length < src.length := by omega
    rw [List.getD_append_right _ _ _ _ hi1,
      List.getD_eq_getElem (List.map (fun x => x % 256) src) 0
        (by simpa using hlt),
      List.getElem_map, List.getD_eq_getElem _ _ hlt]
  · simp only [hi, if_false]
    rcases lt_or_ge i l.length with hlt | hge
    · rw [List.getD_append _ _ _ _ hlt]
    · rw [List.getD_eq_default _ _ hge,
        List.getD_eq_default _ _ (by simp; omega)]

lemma readU8_bufAt (l : List ℕ) (p : ℕ) (h : p < l.length) :
    (bufAt l p).readU8 = (l.getD p 0 % 256, bufAt l (p + 1)) := by
  unfold bufAt PacketBuffer.readU8
  simp [h]

lemma readU16_bufAt (l : List ℕ) (p : ℕ) (h : p + 2 ≤ l.length) :
    (bufAt l p).readU16 =
      (l.getD p 0 % 256 + 256 * (l.getD (p + 1) 0 % 256), bufAt l (p + 2)) := by
  unfold PacketBuffer.readU16
  rw [readU8_bufAt _ _ (by omega)]
  simp only
  rw [readU8_bufAt _ _ (by omega)]

lemma readU32_bufAt (l : List ℕ) (p : ℕ) (h : p + 4 ≤ l.length) :
    (bufAt l p).readU32 =
      (l.getD p 0 % 256 + 256 * (l.getD (p + 1) 0 % 256) +
        65536 * (l.getD (p + 2) 0 % 256 + 256 * (l.getD (p + 3) 0 % 256)),
       bufAt l (p + 4)) := by
  unfold PacketBuffer.readU32
  rw [readU16_bufAt _ _ (by omega)]
  simp only
  rw [readU16_bufAt _ _ (by omega)]

lemma readFloat_bufAt (l : List ℕ) (p : ℕ) (h : p + 4 ≤ l.length) :
    (bufAt l p).readFloat =
      (l.getD p 0 % 256 + 256 * (l.getD (p + 1) 0 % 256) +
        65536 * (l.getD (p + 2) 0 % 256 + 256 * (l.getD (p + 3) 0 % 256)),
       bufAt l (p + 4)) :=
  readU32_bufAt l p h

lemma readBytes_bufAt (l : List ℕ) (p n : ℕ) (h : p + n ≤ l.length) :
    (bufAt l p).readBytes n =
      (some ((List.range n).map fun i => l.getD (p + i) 0 % 256),
       bufAt l (p + n)) := by
  unfold bufAt PacketBuffer.readBytes
  simp [h]

lemma writeHeader_bufAt (l : List ℕ) (p : ℕ) (h : PacketHeader)
    (hl : l.length + 23 ≤ 1400) :
    (bufAt l p).writeHeader h = bufAt (l ++ headerBytes h) p := by
  unfold PacketBuffer.writeHeader
  rw [writeBytes_bufAt _ _ _ (by simp; omega)]
  rw [writeU8_bufAt _ _ _ (by simp; omega)]
  rw [writeU32_bufAt _ _ _ (by simp; omega)]
  rw [writeU32_bufAt _ _ _ (by simp; omega)]
  rw [writeU32_bufAt _ _ _ (by simp; omega)]
  rw [writeU32_bufAt _ _ _ (by simp; omega)]
  rw [writeU16_bufAt _ _ _ (by simp; omega)]
  simp [headerBytes, List.append_assoc]

theorem header_roundtrip (h : PacketHeader) (hwf : h.wf) :
    ((PacketBuffer.fresh.writeHeader h).readHeader).1 = h := by
  obtain ⟨hm0, hm1, hm2, hm3, ht, hs, ha, hb, htk, hp⟩ := hwf
  rw [fresh_eq_bufAt, writeHeader_bufAt _ _ _ (by simp)]
  unfold PacketBuffer.readHeader
  rw [readBytes_bufAt _ _ _ (by simp [headerBytes])]
  simp only
  rw [readU8_bufAt _ _ (by simp [headerBytes])]
  simp only
  rw [readU32_bufAt _ _ (by simp [headerBytes])]
  simp only
  rw [readU32_bufAt _ _ (by simp [headerBytes])]
  simp only
  rw [readU32_bufAt _ _ (by simp [headerBytes])]
  simp only
  rw [readU32_bufAt _ _ (by simp [headerBytes])]
  simp only
  rw [readU16_bufAt _ _ (by simp [headerBytes])]
  simp only [headerBytes, List.nil_append, List.getD_cons_zero,
    List.getD_cons_succ, List.range_succ, List.map_append, List.map_cons,
    List.map_nil, List.getD]
  obtain ⟨m0, m1, m2, m3, ty, sq, ak, ab, tk, ps⟩ := h
  simp only [PacketHeader.mk.injEq] at *
  norm_num
  refine ⟨by omega, by omega, by omega, by omega, by omega, by omega,
    by omega, by omega, by omega, by omega⟩

lemma writePlayerInput_bufAt (l : List ℕ) (p : ℕ) (i : PlayerInputW)
    (hl : l.length + 21 ≤ 1400) :
    (bufAt l p).writePlayerInput i = bufAt (l ++ inputBytes i) p := by
  unfold PacketBuffer.writePlayerInput PacketBuffer.writeFloat
  rw [writeU32_bufAt _ _ _ (by simp; omega)]
  rw [writeU32_bufAt _ _ _ (by simp; omega)]
  rw [writeU8_bufAt _ _ _ (by simp; omega)]
  rw [writeU32_bufAt _ _ _ (by simp; omega)]
  rw [writeU32_bufAt _ _ _ (by simp; omega)]
  rw [writeU32_bufAt _ _ _ (by simp; omega)]
  simp [inputBytes, u32Bytes, List.append_assoc]

lemma writePlayerState_bufAt (l : List ℕ) (p : ℕ) (s : PlayerStateW)
    (hl : l.length + 32 ≤ 1400) :
    (bufAt l p).writePlayerState s = bufAt (l ++ stateBytes s) p := by
  unfold PacketBuffer.writePlayerState PacketBuffer.writeFloat
  rw [writeU32_bufAt _ _ _ (by simp; omega)]
  rw [writeU32_bufAt _ _ _ (by simp; omega)]
  rw [writeU32_bufAt _ _ _ (by simp; omega)]
  rw [writeU32_bufAt _ _ _ (by simp; omega)]
  rw [writeU32_bufAt _ _ _ (by simp; omega)]
  rw [writeU32_bufAt _ _ _ (by simp; omega)]
  rw [writeU32_bufAt _ _ _ (by simp; omega)]
  rw [writeU32_bufAt _ _ _ (by simp; omega)]
  simp [stateBytes, u32Bytes, List.append_assoc]

theorem input_roundtrip (i : PlayerInputW) (hwf : i.wf) :
    ((PacketBuffer.fresh.writePlayerInput i).readPlayerInput).1 = i := by
  obtain ⟨sq, tk, ky, yw, pt, dt⟩ := i
  obtain ⟨h1, h2, h3, h4, h5, h6⟩ := hwf
  simp only [PlayerInputW.wf] at *
  rw [fresh_eq_bufAt, writePlayerInput_bufAt _ _ _ (by simp)]
  unfold PacketBuffer.readPlayerInput PacketBuffer.readFloat
  rw [readU32_bufAt _ _ (by simp [inputBytes, u32Bytes])]
  simp only
  rw [readU32_bufAt _ _ (by simp [inputBytes, u32Bytes])]
  simp only
  rw [readU8_bufAt _ _ (by simp [inputBytes, u32Bytes])]
  simp only
  rw [readU32_bufAt _ _ (by simp [inputBytes, u32Bytes])]
  simp only
  rw [readU32_bufAt _ _ (by simp [inputBytes, u32Bytes])]
  simp only
  rw [readU32_bufAt _ _ (by simp [inputBytes, u32Bytes])]
  simp only [inputBytes, u32Bytes, List.nil_append, List.cons_append,
    List.getD_cons_zero, List.getD_cons_succ, List.getD]
  simp only [PlayerInputW.mk.injEq]
  norm_num
  refine ⟨by omega, by omega, by omega, by omega, by omega, by omega⟩

theorem state_roundtrip (s : PlayerStateW) (hwf : s.wf) :
    ((PacketBuffer.fresh.writePlayerState s).readPlayerState).1 = s := by
  obtain ⟨pid, tk, px, py, pz, yw, pt, lp⟩ := s
  obtain ⟨h1, h2, h3, h4, h5, h6, h7, h8⟩ := hwf
  simp only [PlayerStateW.wf] at *
  rw [fresh_eq_bufAt, writePlayerState_bufAt _ _ _ (by simp)]
  unfold PacketBuffer.readPlayerState PacketBuffer.readFloat
  rw [readU32_bufAt _ _ (by simp [stateBytes, u32Bytes])]
  simp only
  rw [readU32_bufAt _ _ (by simp [stateBytes, u32Bytes])]
  simp only
  rw [readU32_bufAt _ _ (by simp [stateBytes, u32Bytes])]
  simp only
  rw [readU32_bufAt _ _ (by simp [stateBytes, u32Bytes])]
  simp only
  rw [readU32_bufAt _ _ (by simp [stateBytes, u32Bytes])]
  simp only
  rw [readU32_bufAt _ _ (by simp [stateBytes, u32Bytes])]
  simp only
  rw [readU32_bufAt _ _ (by simp [stateBytes, u32Bytes])]
  simp only
  rw [readU32_bufAt _ _ (by simp [stateBytes, u32Bytes])]
  simp only [stateBytes, u32Bytes, List.nil_append, List.cons_append,
    List.getD_cons_zero, List.getD_cons_succ, List.getD]
  simp only [PlayerStateW.mk.injEq]
  norm_num
  refine ⟨by omega, by omega, by omega, by omega, by omega, by omega,
    by omega, by omega⟩

/-- Claim C9: for every `PacketHeader` H written into a fresh `PacketBuffer`,
`readHeader` after `writeHeader` returns H exactly; likewise
`readPlayerInput ∘ writePlayerInput` and `readPlayerState ∘ writePlayerState`
are identities on a fresh buffer (float fields compared as their bit
patterns, which `memcpy` preserves exactly). -/
theorem claim_C9_codec_roundtrip (h : PacketHeader) (i : PlayerInputW)
    (s : PlayerStateW) (hh : h.wf) (hi : i.wf) (hs : s.wf) :
    ((PacketBuffer.fresh.writeHeader h).readHeader).1 = h ∧
    ((PacketBuffer.fresh.writePlayerInput i).readPlayerInput).1 = i ∧
    ((PacketBuffer.fresh.writePlayerState s).readPlayerState).1 = s :=
  ⟨header_roundtrip h hh, input_roundtrip i hi, state_roundtrip s hs⟩

theorem claim_C9_codec_roundtrip_witness :
    hdrEx.wf ∧ inpEx.wf ∧ stEx.wf ∧
    (((PacketBuffer.fresh.writeHeader hdrEx).readHeader).1 = hdrEx ∧
     ((PacketBuffer.fresh.writePlayerInput inpEx).readPlayerInput).1 = inpEx ∧
     ((PacketBuffer.fresh.writePlayerState stEx).readPlayerState).1 = stEx) :=
  ⟨by decide, by decide, by decide,
   claim_C9_codec_roundtrip hdrEx inpEx stEx (by decide) (by decide)
     (by decide)⟩

/-- Claim C10: a `PacketBuffer` whose `writePos` is below 4 (a datagram too
short to contain the magic field) yields, via `readHeader`, a header whose
magic is the default-constructed "PULS" — `readBytes` fails its guard and
leaves the destination untouched — so `isValid()` is `true` and the magic
gate does not reject such datagrams. -/
theorem claim_C10_short_datagram_passes_gate (b : PacketBuffer)
    (h : b.writePos < 4) :
    ((b.readHeader).1.magic0 = 80 ∧ (b.readHeader).1.magic1 = 85 ∧
     (b.readHeader).1.magic2 = 76 ∧ (b.readHeader).1.magic3 = 83) ∧
    (b.readHeader).1.isValid = true := by
  have hng : ¬ (b.readPos + 4 ≤ b.writePos) := by omega
  unfold PacketBuffer.readHeader
  simp [PacketBuffer.readBytes, hng, PacketHeader.mkDefault,
    PacketHeader.isValid]

theorem claim_C10_short_datagram_passes_gate_witness :
    (PacketBuffer.fresh.writeU8 5).writePos < 4 ∧
    (((PacketBuffer.fresh.writeU8 5).readHeader).1.magic0 = 80 ∧
     ((PacketBuffer.fresh.writeU8 5).readHeader).1.magic1 = 85 ∧
     ((PacketBuffer.fresh.writeU8 5).readHeader).1.magic2 = 76 ∧
     ((PacketBuffer.fresh.writeU8 5).readHeader).1.magic3 = 83) ∧
    ((PacketBuffer.fresh.writeU8 5).readHeader).1.isValid = true :=
  ⟨by decide, claim_C10_short_datagram_passes_gate _ (by decide)⟩

/-- Claim C2 (refuting evidence): for a STATE_UPDATE with one player the
datagram is 55 bytes and `writeHeader` emits 23 bytes, but the code sets
`payloadSize = 55 - 22 = 33` (not `55 - 23`), writes the first payload byte
(the player count, 1) at offset 22, and the header write then overwrites
offset 22 with the high byte of `payloadSize` (0). -/
theorem claim_C2_header_size_bug :
    (PacketBuffer.fresh.writeHeader hdrEx).writePos = 23 ∧
    (Host.buildStateUpdate 7 0 0 0 [stEx]).writePos = 55 ∧
    ((Host.buildStateUpdate 7 0 0 0 [stEx]).data 21 +
      256 * (Host.buildStateUpdate 7 0 0 0 [stEx]).data 22 = 55 - 22) ∧
    (55 : ℕ) - 22 ≠ 55 - 23 ∧
    (Host.buildStateUpdate 7 0 0 0 [stEx]).data 22 = 0 := by
  set_option maxRecDepth 8000 in decide

lemma applyInput_position_eq (piv : ℚ) (cosf sinf : ℚ → ℚ) (tick : ℕ)
    (s s' : PlayerStateQ) (i : PlayerInputQ) (h : s.position = s'.position) :
    (Host.applyInput piv cosf sinf tick s i).position =
      (Client.applyInputToState piv cosf sinf s' i).position := by
  unfold Host.applyInput Client.applyInputToState
  simp only [h]

lemma processPending_eq_predict (piv : ℚ) (cosf sinf : ℚ → ℚ)
    (tick serverTick : ℕ) (inputs : List PlayerInputQ) :
    ∀ (sh sc : PlayerStateQ) (lp0 : ℕ), sh.position = sc.position →
      (∀ j ∈ inputs, lp0 < j.sequence) →
      inputs.Pairwise (fun a b => a.sequence < b.sequence) →
      (Host.processPendingInputs piv cosf sinf tick sh lp0 inputs).1.position
        = (Client.predictAll piv cosf sinf serverTick sc inputs).position := by
  induction inputs with
  | nil =>
    intro sh sc lp0 hpos _ _
    simpa [Host.processPendingInputs, Client.predictAll]
  | cons i rest ih =>
    intro sh sc lp0 hpos hlp hpw
    have hlt : lp0 < i.sequence := hlp i (List.mem_cons_self i rest)
    rw [List.pairwise_cons] at hpw
    unfold Host.processPendingInputs Client.predictAll
    rw [if_pos hlt]
    have hstep :
        ({ Host.applyInput piv cosf sinf tick sh i with
            lastProcessedInput := i.sequence } : PlayerStateQ).position =
        (Client.predictStep piv cosf sinf serverTick sc i).position := by
      simpa [Client.predictStep] using
        applyInput_position_eq piv cosf sinf tick sh sc i hpos
    exact ih _ _ _ hstep (fun j hj => hpw.1 j hj) hpw.2

/-- Claim C1: host `applyInput` and client `applyInputToState` compute the
identical new position, yaw and pitch for every state and input (for every
instantiation of `M_PI`, `cosf`, `sinf` — in particular the IEEE one, which
makes the two functions bit-for-bit identical); hence draining any list of
inputs with strictly increasing sequence numbers, all newer than the
connection's `lastProcessedInput`, from the same starting position yields
the same host-authoritative and client-predicted position. -/
theorem claim_C1_prediction_matches_authority (piv : ℚ) (cosf sinf : ℚ → ℚ)
    (tick serverTick : ℕ) (s : PlayerStateQ) (i : PlayerInputQ)
    (s0 : PlayerStateQ) (lp0 : ℕ) (inputs : List PlayerInputQ)
    (hmono : inputs.Pairwise (fun a b => a.sequence < b.sequence))
    (hnew : ∀ j ∈ inputs, lp0 < j.sequence) :
    ((Host.applyInput piv cosf sinf tick s i).position =
       (Client.applyInputToState piv cosf sinf s i).position ∧
     (Host.applyInput piv cosf sinf tick s i).yaw =
       (Client.applyInputToState piv cosf sinf s i).yaw ∧
     (Host.applyInput piv cosf sinf tick s i).pitch =
       (Client.applyInputToState piv cosf sinf s i).pitch) ∧
    (Host.processPendingInputs piv cosf sinf tick s0 lp0 inputs).1.position =
      (Client.predictAll piv cosf sinf serverTick s0 inputs).position :=
  ⟨⟨applyInput_position_eq piv cosf sinf tick s s i rfl, rfl, rfl⟩,
   processPending_eq_predict piv cosf sinf tick serverTick inputs s0 s0 lp0
     rfl hnew hmono⟩

theorem claim_C1_prediction_matches_authority_witness :
    ([inC1a, inC1b].Pairwise (fun a b => a.sequence < b.sequence) ∧
      (∀ j ∈ [inC1a, inC1b], 0 < j.sequence)) ∧
    ((Host.applyInput 3 (fun q => q + 1) (fun q => 2 * q) 9 stC1
        inC1a).position =
      (Client.applyInputToState 3 (fun q => q + 1) (fun q => 2 * q) stC1
        inC1a).position ∧
     (Host.processPendingInputs 3 (fun q => q + 1) (fun q => 2 * q) 9 stC1 0
        [inC1a, inC1b]).1.position =
      (Client.predictAll 3 (fun q => q + 1) (fun q => 2 * q) 4 stC1
        [inC1a, inC1b]).position) := by
  have h := claim_C1_prediction_matches_authority 3 (fun q => q + 1)
    (fun q => 2 * q) 9 4 stC1 inC1a stC1 0 [inC1a, inC1b]
    (by decide) (by decide)
  exact ⟨⟨by decide, by decide⟩, h.1.1, h.2⟩

lemma ackLoop_all_newer (inputs : ℕ → PlayerInputQ) (seq : ℕ) :
    ∀ (count head : ℕ), head < INPUT_BUFFER_SIZE →
      (∀ j < count, ∀ i ≤ j,
        (inputs ((head + i) % INPUT_BUFFER_SIZE)).sequence ≤
        (inputs ((head + j) % INPUT_BUFFER_SIZE)).sequence) →
      ∀ i < (InputHistoryQ.ackLoop inputs seq head count).2,
        seq < (inputs
          (((InputHistoryQ.ackLoop inputs seq head count).1 + i) %
            INPUT_BUFFER_SIZE)).sequence := by
  intro count
  induction count with
  | zero => intro head _ _ i hi; simp [InputHistoryQ.ackLoop] at hi
  | succ c ih =>
    intro head hwf hsorted i hi
    unfold InputHistoryQ.ackLoop at hi ⊢
    by_cases hle : (inputs head).sequence ≤ seq
    · rw [if_pos hle] at hi ⊢
      refine ih ((head + 1) % INPUT_BUFFER_SIZE)
        (Nat.mod_lt _ (by norm_num [INPUT_BUFFER_SIZE])) ?_ i hi
      intro j hj k hk
      have e1 : ((head + 1) % INPUT_BUFFER_SIZE + k) % INPUT_BUFFER_SIZE =
          (head + (k + 1)) % INPUT_BUFFER_SIZE := by
        rw [Nat.mod_add_mod]; ring_nf
      have e2 : ((head + 1) % INPUT_BUFFER_SIZE + j) % INPUT_BUFFER_SIZE =
          (head + (j + 1)) % INPUT_BUFFER_SIZE := by
        rw [Nat.mod_add_mod]; ring_nf
      rw [e1, e2]
      exact hsorted (j + 1) (by omega) (k + 1) (by omega)
    · rw [if_neg hle] at hi ⊢
      replace hi : i < c + 1 := hi
      have hmod : head % INPUT_BUFFER_SIZE = head := Nat.mod_eq_of_lt hwf
      have hs0 := hsorted i hi 0 (Nat.zero_le i)
      rw [Nat.add_zero, hmod] at hs0
      show seq < (inputs ((head + i) % INPUT_BUFFER_SIZE)).sequence
      omega

/-- Claim C8, amended: for every `InputHistory` whose logical slice is
sorted by sequence number (the reachable histories — the client appends
`++inputSequence_`), after `acknowledgeUpTo(k)` no input remaining in the
logical slice `[head, head + count)` has `sequence ≤ k`, and
`getUnacknowledged()` returns no input with `sequence ≤ k`. -/
theorem claim_C8_acknowledge_drops_acked (h : InputHistoryQ) (k : ℕ)
    (hh : h.head < INPUT_BUFFER_SIZE) (hs : h.sortedSlice) :
    (∀ i < (h.acknowledgeUpTo k).count,
      k < ((h.acknowledgeUpTo k).inputs
        (((h.acknowledgeUpTo k).head + i) % INPUT_BUFFER_SIZE)).sequence) ∧
    (∀ inp ∈ (h.acknowledgeUpTo k).getUnacknowledged, k < inp.sequence) := by
  have base := ackLoop_all_newer h.inputs k h.count h.head hh
    (fun j hj i hi => hs j hj i hi)
  constructor
  · intro i hi
    exact base i hi
  · intro inp hinp
    unfold InputHistoryQ.getUnacknowledged at hinp
    simp only [List.mem_map, List.mem_range] at hinp
    obtain ⟨i, hi, rfl⟩ := hinp
    exact base i hi

/-- Claim C8 as stated (for *every* `InputHistory`) is false:
`acknowledgeUpTo` stops at the first retained input, so in the unsorted
history `[5, 1]`, after `acknowledgeUpTo(3)` the input with sequence
`1 ≤ 3` is still returned by `getUnacknowledged()`. -/
theorem claim_C8_counterexample :
    ∃ inp ∈ (histCex.acknowledgeUpTo 3).getUnacknowledged,
      inp.sequence ≤ 3 := by
  decide

theorem claim_C8_acknowledge_drops_acked_witness :
    histW.sortedSlice ∧
    ((∀ i < (histW.acknowledgeUpTo 5).count,
      5 < ((histW.acknowledgeUpTo 5).inputs
        (((histW.acknowledgeUpTo 5).head + i) %
          INPUT_BUFFER_SIZE)).sequence) ∧
     (∀ inp ∈ (histW.acknowledgeUpTo 5).getUnacknowledged,
       5 < inp.sequence)) :=
  ⟨by decide, claim_C8_acknowledge_drops_acked histW 5 (by decide)
    (by decide)⟩

/-- Claim C4: reconciliation against an authoritative state `s` first
performs `acknowledgeUpTo(s.lastProcessedInput)`, then with
`e = sqrtf(‖s.position − localState.position‖²)` and `corrected` = `s`
with all remaining unacknowledged inputs re-applied in order: if e ≤ 0.01
the local position (indeed the whole local state) is unchanged; if
0.01 < e < 1.0 it moves exactly one 0.1-step towards `corrected`; if
e ≥ 1.0 it snaps to `corrected.position`. -/
theorem claim_C4_reconciliation (piv : ℚ) (cosf sinf sqrtf : ℚ → ℚ)
    (c : ReconcileCtx) (s : PlayerStateQ) :
    ((Client.reconcileState piv cosf sinf sqrtf c s).inputHistory =
       c.inputHistory.acknowledgeUpTo s.lastProcessedInput ∧
     (Client.reconcileState piv cosf sinf sqrtf c s).lastServerState = s) ∧
    (let error := s.position.sub c.localState.position
     let e := sqrtf (error.x * error.x + error.y * error.y +
       error.z * error.z)
     let corrected :=
       ((c.inputHistory.acknowledgeUpTo
           s.lastProcessedInput).getUnacknowledged).foldl
         (Client.applyInputToState piv cosf sinf) s
     (e ≤ 1 / 100 →
       (Client.reconcileState piv cosf sinf sqrtf c s).localState =
         c.localState) ∧
     (1 / 100 < e → e < 1 →
       (Client.reconcileState piv cosf sinf sqrtf c s).localState.position =
         { x := c.localState.position.x +
             (corrected.position.x - c.localState.position.x) * (1 / 10),
           y := c.localState.position.y +
             (corrected.position.y - c.localState.position.y) * (1 / 10),
           z := c.localState.position.z +
             (corrected.position.z - c.localState.position.z) *
               (1 / 10) }) ∧
     (1 ≤ e →
       (Client.reconcileState piv cosf sinf sqrtf c s).localState.position =
         corrected.position)) := by
  by_cases h1 : sqrtf ((s.position.sub c.localState.position).x *
      (s.position.sub c.localState.position).x +
      (s.position.sub c.localState.position).y *
      (s.position.sub c.localState.position).y +
      (s.position.sub c.localState.position).z *
      (s.position.sub c.localState.position).z) > 1 / 100
  · by_cases h2 : sqrtf ((s.position.sub c.localState.position).x *
        (s.position.sub c.localState.position).x +
        (s.position.sub c.localState.position).y *
        (s.position.sub c.localState.position).y +
        (s.position.sub c.localState.position).z *
        (s.position.sub c.localState.position).z) < 1
    · simp only [Client.reconcileState, if_pos h1, if_pos h2]
      exact ⟨⟨trivial, trivial⟩, fun hle => absurd hle (not_le.mpr h1),
        fun _ _ => trivial, fun hge => absurd hge (not_le.mpr h2)⟩
    · simp only [Client.reconcileState, if_pos h1, if_neg h2]
      exact ⟨⟨trivial, trivial⟩, fun hle => absurd hle (not_le.mpr h1),
        fun _ hlt => absurd hlt h2, fun _ => trivial⟩
  · simp only [Client.reconcileState, if_neg h1]
    exact ⟨⟨trivial, trivial⟩, fun _ => trivial, fun hgt _ => absurd hgt h1,
      fun hge =>
        absurd (lt_of_lt_of_le (by norm_num : (1 : ℚ) / 100 < 1) hge) h1⟩

theorem claim_C4_reconciliation_witness :
    (1 : ℚ) ≤ (fun q => q)
      ((srvC4.position.sub ctxC4.localState.position).x *
        (srvC4.position.sub ctxC4.localState.position).x +
       (srvC4.position.sub ctxC4.localState.position).y *
        (srvC4.position.sub ctxC4.localState.position).y +
       (srvC4.position.sub ctxC4.localState.position).z *
        (srvC4.position.sub ctxC4.localState.position).z) ∧
    (Client.reconcileState 3 (fun q => q + 1) (fun q => 2 * q) (fun q => q)
        ctxC4 srvC4).localState.position =
      (((ctxC4.inputHistory.acknowledgeUpTo
          srvC4.lastProcessedInput).getUnacknowledged).foldl
        (Client.applyInputToState 3 (fun q => q + 1) (fun q => 2 * q))
        srvC4).position :=
  ⟨by norm_num [srvC4, ctxC4, Vec3Q.sub],
   (claim_C4_reconciliation 3 (fun q => q + 1) (fun q => 2 * q)
     (fun q => q) ctxC4 srvC4).2.2.2
     (by norm_num [srvC4, ctxC4, Vec3Q.sub])⟩

/-- Claim C7, amended: whenever the buffer holds at least two states and
the newest inserted state has `tick ≤ t`, `interpolate` succeeds and
returns that newest state unchanged (freeze — no extrapolation is
performed).  With fewer than two stored states `interpolate` fails
regardless, which is what forces the `2 ≤ count` hypothesis. -/
theorem claim_C7_interpolation_freeze (b : InterpolationStateQ) (t : ℕ)
    (hc : 2 ≤ b.count)
    (ht : (b.states ((b.count - 1) % STATE_BUFFER_SIZE)).tick ≤ t) :
    b.interpolate t =
      some (b.states ((b.count - 1) % STATE_BUFFER_SIZE)) := by
  unfold InterpolationStateQ.interpolate
  rw [if_neg (by omega)]
  have hmin : ∃ m, min b.count STATE_BUFFER_SIZE = m + 1 := by
    refine ⟨min b.count STATE_BUFFER_SIZE - 1, ?_⟩
    have : 0 < min b.count STATE_BUFFER_SIZE := by
      simp [STATE_BUFFER_SIZE]; omega
    omega
  obtain ⟨m, hm⟩ := hmin
  have hfind : b.findBeforeIdx t = some 0 := by
    unfold InterpolationStateQ.findBeforeIdx
    rw [hm, List.range_succ_eq_map]
    rw [List.find?_cons_of_pos]
    simpa using ht
  rw [hfind]
  simp

/-- Claim C7 as stated is false: with exactly one stored state whose tick
(0) is at most the target tick (5), `interpolate` fails — the
`if (count < 2) return false` guard rejects single-state buffers. -/
theorem claim_C7_counterexample :
    interpCex.count = 1 ∧ (interpCex.states 0).tick ≤ 5 ∧
    interpCex.interpolate 5 = none := by
  refine ⟨rfl, by decide, ?_⟩
  unfold InterpolationStateQ.interpolate
  simp [interpCex]

theorem claim_C7_interpolation_freeze_witness :
    2 ≤ interpW.count ∧
    (interpW.states ((interpW.count - 1) % STATE_BUFFER_SIZE)).tick ≤ 115 ∧
    interpW.interpolate 115 =
      some (interpW.states ((interpW.count - 1) % STATE_BUFFER_SIZE)) :=
  ⟨by decide, by decide,
   claim_C7_interpolation_freeze interpW 115 (by decide) (by decide)⟩

/-- Claim C5: on a packet with sequence S over a connection with current
`remoteSequence` R and ack bitfield B, host and client update identically:
if S > R the new ackBits is `(B << (S−R)) | 1` (mod 2³²) when S−R < 32 and
1 when S−R ≥ 32, with `remoteSequence ← S`; if S < R and R−S < 32, bit
R−S of B is set; if S = R, or S < R with R−S ≥ 32, nothing changes. -/
theorem claim_C5_ack_bitfield_update (R B S : ℕ) :
    Host.updateAcks R B S = Client.updateAcks R B S ∧
    (R < S → S - R < 32 →
      Host.updateAcks R B S = (S, (B <<< (S - R) ||| 1) % 2 ^ 32)) ∧
    (R < S → 32 ≤ S - R → Host.updateAcks R B S = (S, 1)) ∧
    (S < R → R - S < 32 →
      Host.updateAcks R B S = (R, (B ||| 1 <<< (R - S)) % 2 ^ 32)) ∧
    (S = R → Host.updateAcks R B S = (R, B)) ∧
    (S < R → 32 ≤ R - S → Host.updateAcks R B S = (R, B)) := by
  unfold Host.updateAcks Client.updateAcks
  refine ⟨rfl, ?_, ?_, ?_, ?_, ?_⟩
  · intro h1 h2
    rw [if_pos h1, if_pos h2]
  · intro h1 h2
    rw [if_pos h1, if_neg (by omega)]
  · intro h1 h2
    rw [if_neg (by omega), if_pos h1, if_pos h2]
  · intro h1
    rw [if_neg (by omega), if_neg (by omega)]
  · intro h1 h2
    rw [if_neg (by omega), if_pos h1, if_neg (by omega)]

theorem claim_C5_ack_bitfield_update_witness :
    (Host.updateAcks 5 1 7 = Client.updateAcks 5 1 7 ∧
      Host.updateAcks 5 1 7 = (7, (1 <<< (7 - 5) ||| 1) % 2 ^ 32)) ∧
    Host.updateAcks 5 1 90 = (90, 1) ∧
    Host.updateAcks 9 4 6 = (9, (4 ||| 1 <<< (9 - 6)) % 2 ^ 32) ∧
    Host.updateAcks 9 4 9 = (9, 4) ∧
    Host.updateAcks 77 4 2 = (77, 4) :=
  ⟨⟨(claim_C5_ack_bitfield_update 5 1 7).1,
    (claim_C5_ack_bitfield_update 5 1 7).2.1 (by decide) (by decide)⟩,
   (claim_C5_ack_bitfield_update 5 1 90).2.2.1 (by decide) (by decide),
   (claim_C5_ack_bitfield_update 9 4 6).2.2.2.1 (by decide) (by decide),
   (claim_C5_ack_bitfield_update 9 4 9).2.2.2.2.1 rfl,
   (claim_C5_ack_bitfield_update 77 4 2).2.2.2.2.2 (by decide) (by decide)⟩

lemma readHeader_isValid_false_of_bad_magic (bytes : List ℕ)
    (h4 : 4 ≤ bytes.length) (hb : ∀ x ∈ bytes, x < 256)
    (hm : ¬(bytes.getD 0 0 = 80 ∧ bytes.getD 1 0 = 85 ∧
            bytes.getD 2 0 = 76 ∧ bytes.getD 3 0 = 83)) :
    ((bufAt bytes 0).readHeader).1.isValid = false := by
  have hgd : ∀ i, i < 4 → bytes.getD i 0 % 256 = bytes.getD i 0 := by
    intro i hi
    have hx : bytes.getD i 0 < 256 := by
      rw [List.getD_eq_getElem _ _ (by omega)]
      exact hb _ (List.getElem_mem _)
    omega
  unfold PacketBuffer.readHeader
  rw [readBytes_bufAt _ _ _ (by omega)]
  simp only [List.range_succ, List.range_zero, List.nil_append,
    List.map_append, List.map_cons, List.map_nil, List.cons_append,
    List.getD_cons_zero, List.getD_cons_succ, Nat.zero_add, Nat.add_zero]
  rw [Bool.eq_false_iff]
  intro hvalid
  apply hm
  simp only [PacketHeader.isValid, Bool.and_eq_true, beq_iff_eq] at hvalid
  rw [hgd 0 (by omega), hgd 1 (by omega), hgd 2 (by omega),
    hgd 3 (by omega)] at hvalid
  exact ⟨hvalid.1.1.1, hvalid.1.1.2, hvalid.1.2, hvalid.2⟩

/-- Claim C3, amended: a datagram of at least 4 bytes whose first four
bytes are not 'P','U','L','S' is silently dropped by both peers — a no-op
on the entire Host and Client state.  (A datagram shorter than 4 bytes is
*not* covered: its magic read fails leaving the valid default "PULS", so
it is dispatched — see the counterexample and claim C10.)  The client side
holds for every `reconcileFn` instantiation. -/
theorem claim_C3_bad_magic_is_noop
    (reconcileFn : ClientM → PlayerStateW → ClientM) (c : ClientM)
    (h : HostM) (bytes : List ℕ) (fromAddr : ℕ) (now time : ℚ)
    (h4 : 4 ≤ bytes.length) (hb : ∀ x ∈ bytes, x < 256)
    (hm : ¬(bytes.getD 0 0 = 80 ∧ bytes.getD 1 0 = 85 ∧
            bytes.getD 2 0 = 76 ∧ bytes.getD 3 0 = 83)) :
    ClientM.processDatagram reconcileFn c bytes now = c ∧
    HostM.processDatagram h bytes fromAddr now time = h := by
  have hv := readHeader_isValid_false_of_bad_magic bytes h4 hb hm
  constructor
  · unfold ClientM.processDatagram
    simp [hv]
  · unfold HostM.processDatagram
    simp [hv]

/-- Claim C3 as stated is false for datagrams too short to contain the
header: the single-byte datagram `[0x05]` keeps the default "PULS" magic
(claim C10), is dispatched as a HEARTBEAT, and updates the client's
`lastReceiveTime_` — not a no-op.  (`reconcileFn` is instantiated with the
identity on the state; the HEARTBEAT path never invokes it.) -/
theorem claim_C3_counterexample :
    ClientM.processDatagram (fun c _ => c) clientCex [5] 1 ≠ clientCex ∧
    ClientM.lastReceiveTime
      (ClientM.processDatagram (fun c _ => c) clientCex [5] 1) = 1 ∧
    clientCex.lastReceiveTime = 0 := by
  refine ⟨?_, ?_, rfl⟩
  · intro hEq
    have h1 : ClientM.lastReceiveTime
        (ClientM.processDatagram (fun c _ => c) clientCex [5] 1) = 1 := by
      decide
    rw [hEq] at h1
    have h0 : clientCex.lastReceiveTime = 0 := rfl
    rw [h0] at h1
    norm_num at h1
  · decide

theorem claim_C3_bad_magic_is_noop_witness :
    (4 ≤ ([0, 0, 0, 0] : List ℕ).length ∧
      (∀ x ∈ ([0, 0, 0, 0] : List ℕ), x < 256)) ∧
    ClientM.processDatagram (fun c _ => c) clientCex [0, 0, 0, 0] 1 =
      clientCex ∧
    HostM.processDatagram hostEx [0, 0, 0, 0] 2 1 1 = hostEx :=
  ⟨⟨by decide, by decide⟩,
   (claim_C3_bad_magic_is_noop (fun c _ => c) clientCex hostEx [0, 0, 0, 0]
     2 1 1 (by decide) (by decide) (by decide)).1,
   (claim_C3_bad_magic_is_noop (fun c _ => c) clientCex hostEx [0, 0, 0, 0]
     2 1 1 (by decide) (by decide) (by decide)).2⟩

/-- Claim C6, amended: `Client::handlePacket` performs no connection-state
check before `handleConnectAccept`, so a CONNECT_ACCEPT is acted on in
*every* state in which the client processes packets — in particular a
client that is already CONNECTED re-reads `playerId_` and `serverTick_`
from the payload, re-initializes its local player at the spawn point, and
stays CONNECTED (it is not dropped). -/
theorem claim_C6_connect_accept_not_gated
    (reconcileFn : ClientM → PlayerStateW → ClientM) (c : ClientM)
    (header : PacketHeader) (buffer : PacketBuffer) (now : ℚ)
    (ht : header.type = 2) :
    ClientM.handlePacket reconcileFn c header buffer now =
      { c with
        lastReceiveTime := now,
        remoteSequence := (Client.updateAcks c.remoteSequence c.ackBits
          header.sequence).1,
        ackBits := (Client.updateAcks c.remoteSequence c.ackBits
          header.sequence).2,
        playerId := (buffer.readU32).1,
        serverTick := ((buffer.readU32).2.readU32).1,
        state := ConnState.CONNECTED,
        localState := { c.localState with
                        playerId := (buffer.readU32).1,
                        posX := 0, posY := bitsOne7, posZ := bitsFive,
                        yaw := bitsNeg90, pitch := 0,
                        tick := ((buffer.readU32).2.readU32).1 } } := by
  unfold ClientM.handlePacket ClientM.handleConnectAccept
  simp [ht]

/-- Claim C6 as stated is false: the client `clientCex` is CONNECTED (not
CONNECTING) with playerId 7, yet processing a CONNECT_ACCEPT datagram
carrying playerId 42 and serverTick 100 changes `playerId_` to 42,
`serverTick_` to 100 and resets the local player state to the spawn point
— the packet is not dropped. -/
theorem claim_C6_counterexample :
    clientCex.state = ConnState.CONNECTED ∧
    ClientM.playerId
      (ClientM.processDatagram (fun c _ => c) clientCex acceptBytes 1) = 42 ∧
    clientCex.playerId = 7 ∧
    ClientM.serverTick
      (ClientM.processDatagram (fun c _ => c) clientCex acceptBytes 1) =
        100 ∧
    PlayerStateW.posZ (ClientM.localState
      (ClientM.processDatagram (fun c _ => c) clientCex acceptBytes 1)) =
        bitsFive := by
  set_option maxRecDepth 8000 in decide

theorem claim_C6_connect_accept_not_gated_witness :
    hdrAcceptW.type = 2 ∧
    ClientM.handlePacket (fun c _ => c) clientCex hdrAcceptW bufAcceptW 1 =
      { clientCex with
        lastReceiveTime := 1,
        remoteSequence := (Client.updateAcks clientCex.remoteSequence
          clientCex.ackBits hdrAcceptW.sequence).1,
        ackBits := (Client.updateAcks clientCex.remoteSequence
          clientCex.ackBits hdrAcceptW.sequence).2,
        playerId := (bufAcceptW.readU32).1,
        serverTick := ((bufAcceptW.readU32).2.readU32).1,
        state := ConnState.CONNECTED,
        localState := { clientCex.localState with
                        playerId := (bufAcceptW.readU32).1,
                        posX := 0, posY := bitsOne7, posZ := bitsFive,
                        yaw := bitsNeg90, pitch := 0,
                        tick := ((bufAcceptW.readU32).2.readU32).1 } } :=
  ⟨rfl, claim_C6_connect_accept_not_gated (fun c _ => c) clientCex
    hdrAcceptW bufAcceptW 1 rfl⟩

